import Mathlib

/-!
Verification development for the nes-data-cleanup repository.

The repository consists of a cutoff identifier (scripts/cutoff_identifier.py)
and several batch deleters (scripts/batch_deleter.py,
scripts/enhanced_batch_deleter.py, scripts/production_batch_deleter.py).
This file gives a shallow embedding of the database state and of the
functions the claims are about, translated from the SQL statements and the
Python control flow in those scripts, and proves or refutes each claim.

Modelling conventions:
- Timestamps are integers; the MySQL expressions
  DATE_SUB(NOW(), INTERVAL 2 YEAR) and DATE_SUB(NOW(), INTERVAL 7 YEAR)
  become `now - 730` and `now - 2555` (days, matching the
  timedelta(days=730) and timedelta(days=2555) used by the report writer).
  The frozen clock `now` is part of the database state.
- Each SQL table is a list of rows; DELETE removes exactly the rows
  matching the WHERE clause, COUNT/MIN/MAX are computed over the list,
  with COALESCE(…, 0) giving 0 on the empty set, as in the source queries.
- mysql.connector rowcount semantics: a cursor on which no statement was
  executed reports rowcount -1, so batch deletion counts are integers.
- The process-wide interrupt flag set by the signal handler is modelled as
  a schedule `intr : Nat -> Bool` giving the value of the flag observed at
  the k-th top-of-loop check, exactly where batch_deleter.py reads it.
- Loops whose Python form can diverge (batch_size = 0) are given explicit
  fuel; exhausted fuel returns `none` and is mapped to an error, which is
  unreachable under the batch_size >= 1 hypotheses of the theorems.
-/

namespace NesCleanup

/-! ## Data model: table rows -/

/-- Row of the `reading` table (columns used by the scripts). -/
structure ReadingRow where
  reading_id : Nat
  guid : Nat
  date_imported : Int
deriving DecidableEq

/-- Row of the `sm_usage` table (billing usage, joined on guid). -/
structure SmUsageRow where
  sm_usage_id : Nat
  guid : Nat
deriving DecidableEq

/-- Row of the `contact` table. -/
structure ContactRow where
  contact_id : Nat
  contact_type_id : Nat
  contact_name : String
  last_modified : Int
  last_updated_on : Int
  object_id : Nat
deriving DecidableEq

/-- Row of the `contact_type` lookup table. -/
structure ContactTypeRow where
  contact_type_id : Nat
  contact_type : String
deriving DecidableEq

/-- Row of the `tenant` table. -/
structure TenantRow where
  contact_id : Nat
  object_id : Nat
  object_type_id : Nat
  to_date : Option Int
deriving DecidableEq

/-- Row of the `invoice` table. -/
structure InvoiceRow where
  invoice_id : Nat
  object_id : Nat
  object_type_id : Nat
  invoice_date : Int
deriving DecidableEq

/-- Row of the `invoice_detail` table. -/
structure InvoiceDetailRow where
  invoice_detail_id : Nat
  invoice_id : Nat
deriving DecidableEq

/-- Row of the `email` table. -/
structure EmailRow where
  email_id : Nat
  object_id : Nat
  object_type_id : Nat
  email_date : Int
deriving DecidableEq

/-- Row of the `email_attachment` table. -/
structure EmailAttachmentRow where
  email_attachment_id : Nat
  email_id : Nat
deriving DecidableEq

/-- Row of the `email_preview` table. -/
structure EmailPreviewRow where
  email_preview_id : Nat
  email_id : Nat
deriving DecidableEq

/-- Row of the `address` table (polymorphic leaf). -/
structure AddressRow where
  address_id : Nat
  object_id : Nat
  object_type_id : Nat
deriving DecidableEq

/-- Row of the `phone` table (polymorphic leaf). -/
structure PhoneRow where
  phone_id : Nat
  object_id : Nat
  object_type_id : Nat
deriving DecidableEq

/-- Row of the `journal_entry` table. -/
structure JournalEntryRow where
  journal_entry_id : Nat
  object_id : Nat
  object_type_id : Nat
  journal_entry_date : Int
deriving DecidableEq

/-- Row of the `note` table (polymorphic leaf). -/
structure NoteRow where
  note_id : Nat
  object_id : Nat
  object_type_id : Nat
  last_updated_on : Int
deriving DecidableEq

/-- Row of the `object` lookup table. The scripts address it both by
`object_name` (batch_deleter.py) and by `object_type`
(enhanced_batch_deleter.py); both columns are carried. -/
structure ObjectRow where
  object_type_id : Nat
  object_type : String
  object_name : String
deriving DecidableEq

/-- Row of the `batch` table. -/
structure BatchRow where
  batch_id : Nat
  created_date : Int
deriving DecidableEq

/-- Row of the `contact_batch` link table. -/
structure ContactBatchRow where
  contact_id : Nat
  batch_id : Nat
deriving DecidableEq

/-- Row of `community_logical_unit_attribute`. -/
structure CluaRow where
  logical_unit_id : Nat
  logical_unit_attribute_type_id : Nat
  val_integer : Int
deriving DecidableEq

/-- Row of `community_logical_unit_attribute_type`. -/
structure CluatRow where
  logical_unit_attribute_type_id : Nat
  logical_unit_attribute_type : String
deriving DecidableEq

/-- Row of the `bank` table (direct foreign key to contact). -/
structure BankRow where
  bank_id : Nat
  contact_id : Nat
deriving DecidableEq

/-- Row of the `subscription` table (direct foreign key to contact). -/
structure SubscriptionRow where
  subscription_id : Nat
  contact_id : Nat
deriving DecidableEq

/-- Row of the `contact_logical_unit` table. -/
structure ContactLogicalUnitRow where
  contact_logical_unit_id : Nat
  contact_id : Nat
deriving DecidableEq

/-- Row of the `nes_anet_customer_profile` table. -/
structure NesAnetCustomerProfileRow where
  profile_id : Nat
  contact_id : Nat
deriving DecidableEq

/-- Row of the `deletion_log` audit table created by batch_deleter.py. -/
structure LogEntry where
  table_name : String
  batch_start_id : Nat
  batch_end_id : Nat
  records_deleted : Int
  execution_time_ms : Nat
deriving DecidableEq

/-- The database state: one list per table, plus the frozen clock `now`
used to evaluate NOW() in the SQL statements. -/
structure DBState where
  now : Int := 0
  reading : List ReadingRow := []
  sm_usage : List SmUsageRow := []
  contact : List ContactRow := []
  contact_type : List ContactTypeRow := []
  tenant : List TenantRow := []
  invoice : List InvoiceRow := []
  invoice_detail : List InvoiceDetailRow := []
  email : List EmailRow := []
  email_attachment : List EmailAttachmentRow := []
  email_preview : List EmailPreviewRow := []
  address : List AddressRow := []
  phone : List PhoneRow := []
  journal_entry : List JournalEntryRow := []
  note : List NoteRow := []
  object : List ObjectRow := []
  batch : List BatchRow := []
  contact_batch : List ContactBatchRow := []
  community_logical_unit_attribute : List CluaRow := []
  community_logical_unit_attribute_type : List CluatRow := []
  bank : List BankRow := []
  subscription : List SubscriptionRow := []
  contact_logical_unit : List ContactLogicalUnitRow := []
  nes_anet_customer_profile : List NesAnetCustomerProfileRow := []
  deletion_log : List LogEntry := []
deriving DecidableEq

/-! ## SQL aggregate helpers -/

/-- COALESCE(MIN(xs), 0): minimum of a list of ids, 0 on the empty set. -/
def sqlMinIds : List Nat → Nat
  | [] => 0
  | x :: xs => xs.foldl min x

/-- COALESCE(MAX(xs), 0): maximum of a list of ids, 0 on the empty set. -/
def sqlMaxIds : List Nat → Nat
  | [] => 0
  | x :: xs => xs.foldl max x

/-! ## Cutoff identifier (scripts/cutoff_identifier.py) -/

/-- The reading retention predicate: date_imported >= NOW() - 2 years. -/
def readingInWindow (now : Int) (r : ReadingRow) : Bool :=
  decide (now - 730 ≤ r.date_imported)

/-- CutoffIdentifier.identify_reading_cutoff: the cutoff is
COALESCE(MIN(reading_id), 0) over rows inside the 2-year window; when that
is 0 (no in-window rows) the fallback is COALESCE(MAX(reading_id), 0) + 1
with 0 estimated deletions, otherwise estimated_deletions counts rows with
reading_id below the cutoff, and is_safe is set to true unconditionally.
Returns (cutoff_id, estimated_deletions, is_safe). -/
def identify_reading_cutoff (db : DBState) : Nat × Nat × Bool :=
  let cutoff_id :=
    sqlMinIds (((db.reading.filter (fun r => readingInWindow db.now r)).map
      (fun r => r.reading_id)))
  if cutoff_id = 0 then
    (sqlMaxIds (db.reading.map (fun r => r.reading_id)) + 1, 0, true)
  else
    (cutoff_id, db.reading.countP (fun r => decide (r.reading_id < cutoff_id)), true)

/-- The post-hoc safety re-check of identify_contact_cutoff: the count of
contacts with contact_id <= cutoff and last_modified inside the 7-year
window. -/
def contactSafetyRecheck (db : DBState) (cutoffId : Nat) : Nat :=
  db.contact.countP (fun c =>
    decide (c.contact_id ≤ cutoffId) && decide (db.now - 2555 ≤ c.last_modified))

/-- CutoffIdentifier.identify_contact_cutoff: counts Closed communities
(via the contact_type join) and ZY-prefixed communities (no join), takes
the cutoff as COALESCE(MAX(contact_id), 0) over joined rows that are
Closed or ZY-prefixed and 7 years stale, and sets is_safe from the
post-hoc re-check count. Returns (cutoff_id, estimated_deletions, is_safe). -/
def identify_contact_cutoff (db : DBState) : Nat × Nat × Bool :=
  let closed_communities := db.contact.countP (fun c =>
    db.contact_type.any (fun ct =>
      ct.contact_type_id == c.contact_type_id && ct.contact_type == "Closed")
    && decide (c.last_modified < db.now - 2555))
  let zy_communities := db.contact.countP (fun c =>
    c.contact_name.take 2 == "ZY" && decide (c.last_modified < db.now - 2555))
  let cutoff_id := sqlMaxIds ((db.contact.filter (fun c =>
    db.contact_type.any (fun ct =>
      ct.contact_type_id == c.contact_type_id
      && (ct.contact_type == "Closed" || c.contact_name.take 2 == "ZY"))
    && decide (c.last_modified < db.now - 2555))).map (fun c => c.contact_id))
  let estimated_deletions := closed_communities + zy_communities
  let recent_activity_count := contactSafetyRecheck db cutoff_id
  (cutoff_id, estimated_deletions, recent_activity_count == 0)

/-- The WHERE clause shared by the two community queries of
identify_community_cutoff: Closed or ZY-prefixed (via the contact_type
join), last_updated_on 7 years stale, no active tenancy of object type 49,
no batch membership created inside 7 years, and no Legal Hold attribute. -/
def communityEligible (db : DBState) (c : ContactRow) : Bool :=
  (db.contact_type.any (fun ct =>
    ct.contact_type_id == c.contact_type_id
    && (ct.contact_type == "Closed" || c.contact_name.take 2 == "ZY")))
  && decide (c.last_updated_on < db.now - 2555)
  && !(db.tenant.any (fun t =>
        t.object_id == c.contact_id && t.object_type_id == 49
        && (match t.to_date with
            | none => true
            | some d => decide (db.now - 2555 ≤ d))))
  && !(db.contact_batch.any (fun cb =>
        cb.contact_id == c.contact_id
        && db.batch.any (fun b =>
            b.batch_id == cb.batch_id && decide (db.now - 2555 ≤ b.created_date))))
  && !(db.community_logical_unit_attribute.any (fun a =>
        a.logical_unit_id == c.object_id
        && db.community_logical_unit_attribute_type.any (fun att =>
            att.logical_unit_attribute_type_id == a.logical_unit_attribute_type_id
            && att.logical_unit_attribute_type == "Legal Hold")
        && a.val_integer == 1))

/-- CutoffIdentifier.identify_community_cutoff: cutoff is
COALESCE(MAX(contact_id), 0) over eligible communities, the estimate
counts them, and is_safe is set to true unconditionally. This function is
not called by generate_cutoff_report. -/
def identify_community_cutoff (db : DBState) : Nat × Nat × Bool :=
  let cutoff_id :=
    sqlMaxIds ((db.contact.filter (fun c => communityEligible db c)).map
      (fun c => c.contact_id))
  let estimated_deletions := db.contact.countP (fun c => communityEligible db c)
  (cutoff_id, estimated_deletions, true)

/-- One entry of the cutoff report (and of the JSON consumed by the
deleter). -/
structure CutoffEntry where
  cutoff_id : Nat
  estimated_deletions : Nat
  is_safe : Bool
  cutoff_date : Int
deriving DecidableEq

/-- The aggregate cutoff report produced by generate_cutoff_report
(table_stats omitted: statistics only). -/
structure Report where
  reading : CutoffEntry
  contact : CutoffEntry
  safety_status : String
deriving DecidableEq

/-- CutoffIdentifier.generate_cutoff_report: runs the reading analysis,
then the contact analysis, then aggregates. The two flags inject a
database query failure into the corresponding phase; the Python body has
no try/except, so a raised exception propagates out of the method, which
the Except monad mirrors. safety_status is SAFE exactly when both entries
are safe. -/
def generate_cutoff_report (db : DBState)
    (readingQueryFails contactQueryFails : Bool) : Except String Report := do
  let (reading_cutoff, reading_deletions, reading_safe) ←
    (if readingQueryFails then Except.error "reading query failed"
     else Except.ok (identify_reading_cutoff db))
  let (contact_cutoff, contact_deletions, contact_safe) ←
    (if contactQueryFails then Except.error "contact query failed"
     else Except.ok (identify_contact_cutoff db))
  Except.ok
    { reading := ⟨reading_cutoff, reading_deletions, reading_safe, db.now - 730⟩
      contact := ⟨contact_cutoff, contact_deletions, contact_safe, db.now - 2555⟩
      safety_status :=
        if reading_safe && contact_safe then "SAFE" else "REQUIRES_REVIEW" }

/-! ## Batch deleter (scripts/batch_deleter.py) -/

/-- BatchDeleter.get_last_processed_id: COALESCE(MAX(batch_end_id), 0)
over deletion_log rows of the given table. -/
def get_last_processed_id (table_name : String) (log : List LogEntry) : Nat :=
  sqlMaxIds ((log.filter (fun e => e.table_name == table_name)).map
    (fun e => e.batch_end_id))

/-- BatchDeleter.log_batch_deletion: INSERT one row into deletion_log and
commit. -/
def log_batch_deletion (db : DBState) (table_name : String)
    (start_id end_id : Nat) (deleted_count : Int) : DBState :=
  { db with deletion_log :=
      db.deletion_log ++ [⟨table_name, start_id, end_id, deleted_count, 0⟩] }

/-- The NOT EXISTS subquery on recent invoices shared by the
account-related DELETE statements: an invoice for the contact of object
type 1 dated inside the 7-year window. -/
def recentInvoiceFor (db : DBState) (cid : Nat) : Bool :=
  db.invoice.any (fun i =>
    i.object_id == cid && i.object_type_id == 1
    && decide (db.now - 2555 ≤ i.invoice_date))

/-- The EXISTS subquery shared by the account-related DELETE statements:
a contact with the given id joined to a tenant whose to_date is set and
is older than 7 years, and with no recent invoice. -/
def inactiveAccount (db : DBState) (cid : Nat) : Bool :=
  db.contact.any (fun c =>
    c.contact_id == cid
    && db.tenant.any (fun t =>
        t.contact_id == c.contact_id
        && (match t.to_date with
            | some d => decide (d < db.now - 2555)
            | none => false))
    && !(recentInvoiceFor db c.contact_id))

/-- The scalar subquery SELECT object_type_id FROM object WHERE
object_name = name; none when no row matches (NULL in MySQL, so the
enclosing comparison matches nothing). -/
def objectTypeIdByName (db : DBState) (name : String) : Option Nat :=
  (db.object.find? (fun o => o.object_name == name)).map
    (fun o => o.object_type_id)

/-- BatchDeleter.delete_reading_batch: DELETE readings in
[start_id, end_id] that are at most cutoff_id, have no sm_usage row with
the same guid, and were imported more than 2 years ago; then commit and
log the batch. Returns (rowcount, new state). -/
def delete_reading_batch (db : DBState)
    (start_id end_id cutoff_id : Nat) : Int × DBState :=
  let del := fun (r : ReadingRow) =>
    decide (start_id ≤ r.reading_id) && decide (r.reading_id ≤ end_id)
    && decide (r.reading_id ≤ cutoff_id)
    && !(db.sm_usage.any (fun u => u.guid == r.guid))
    && decide (r.date_imported < db.now - 730)
  let deleted_count : Int := db.reading.countP del
  let db1 := { db with reading := db.reading.filter (fun r => !(del r)) }
  (deleted_count, log_batch_deletion db1 "reading" start_id end_id deleted_count)

/-- The per-table DELETE statement chosen by the if/elif chain of
BatchDeleter.delete_account_related_batch, with its rowcount. A table
name outside the chain executes no statement, leaving the cursor rowcount
at -1 as mysql.connector reports it. -/
def account_batch_rows (db : DBState) (table_name : String)
    (start_id end_id cutoff_id : Nat) : Int × DBState :=
  let inRange := fun (x : Nat) =>
    decide (start_id ≤ x) && decide (x ≤ end_id) && decide (x ≤ cutoff_id)
  if table_name == "email_attachment" then
      let del := fun (ea : EmailAttachmentRow) =>
        db.email.any (fun em =>
          em.email_id == ea.email_id && inRange em.object_id
          && em.object_type_id == 1 && inactiveAccount db em.object_id)
      ((db.email_attachment.countP del : Int),
       { db with email_attachment :=
          db.email_attachment.filter (fun x => !(del x)) })
    else if table_name == "email" then
      let del := fun (em : EmailRow) =>
        inRange em.object_id && em.object_type_id == 1
        && inactiveAccount db em.object_id
      ((db.email.countP del : Int),
       { db with email := db.email.filter (fun x => !(del x)) })
    else if table_name == "invoice_detail" then
      let del := fun (d : InvoiceDetailRow) =>
        db.invoice.any (fun i =>
          i.invoice_id == d.invoice_id && inRange i.object_id
          && i.object_type_id == 1 && inactiveAccount db i.object_id)
      ((db.invoice_detail.countP del : Int),
       { db with invoice_detail :=
          db.invoice_detail.filter (fun x => !(del x)) })
    else if table_name == "invoice" then
      let del := fun (i : InvoiceRow) =>
        inRange i.object_id && i.object_type_id == 1
        && inactiveAccount db i.object_id
      ((db.invoice.countP del : Int),
       { db with invoice := db.invoice.filter (fun x => !(del x)) })
    else if table_name == "address" then
      let del := fun (a : AddressRow) =>
        inRange a.object_id
        && (match objectTypeIdByName db "dstContact" with
            | some tid => a.object_type_id == tid
            | none => false)
        && inactiveAccount db a.object_id
      ((db.address.countP del : Int),
       { db with address := db.address.filter (fun x => !(del x)) })
    else if table_name == "phone" then
      let del := fun (p : PhoneRow) =>
        inRange p.object_id
        && (match objectTypeIdByName db "dstContact" with
            | some tid => p.object_type_id == tid
            | none => false)
        && inactiveAccount db p.object_id
      ((db.phone.countP del : Int),
       { db with phone := db.phone.filter (fun x => !(del x)) })
    else if table_name == "tenant" then
      let del := fun (t : TenantRow) =>
        inRange t.contact_id
        && (match t.to_date with
            | some d => decide (d < db.now - 2555)
            | none => false)
        && !(recentInvoiceFor db t.contact_id)
      ((db.tenant.countP del : Int),
       { db with tenant := db.tenant.filter (fun x => !(del x)) })
    else if table_name == "contact" then
      let del := fun (c : ContactRow) =>
        inRange c.contact_id
        && db.tenant.any (fun t =>
            t.contact_id == c.contact_id
            && (match t.to_date with
                | some d => decide (d < db.now - 2555)
                | none => false))
        && !(recentInvoiceFor db c.contact_id)
        && !(db.journal_entry.any (fun j =>
              j.object_id == c.contact_id && j.object_type_id == 1
              && decide (db.now - 2555 ≤ j.journal_entry_date)))
        && !(db.note.any (fun n =>
              n.object_id == c.contact_id && n.object_type_id == 94
              && decide (db.now - 2555 ≤ n.last_updated_on)))
        && !(db.email.any (fun em =>
              em.object_id == c.contact_id && em.object_type_id == 1
              && decide (db.now - 2555 ≤ em.email_date)))
      ((db.contact.countP del : Int),
       { db with contact := db.contact.filter (fun x => !(del x)) })
    else
      (-1, db)

/-- BatchDeleter.delete_account_related_batch: runs the per-table DELETE
statement, commits, and logs one deletion_log row. Returns
(rowcount, new state). -/
def delete_account_related_batch (db : DBState) (table_name : String)
    (start_id end_id cutoff_id : Nat) : Int × DBState :=
  let result := account_batch_rows db table_name start_id end_id cutoff_id
  (result.1, log_batch_deletion result.2 table_name start_id end_id result.1)

/-- One iteration body of BatchDeleter.process_table: in dry-run mode no
statement executes and the count is 0; otherwise the reading batch or the
account-related batch runs for the range p = (current_id, end_id). -/
def batchStep (db : DBState) (table_name : String) (cutoff_id : Nat)
    (dry_run : Bool) (p : Nat × Nat) : Int × DBState :=
  if dry_run then ((0 : Int), db)
  else if table_name == "reading" then
    delete_reading_batch db p.1 p.2 cutoff_id
  else
    delete_account_related_batch db table_name p.1 p.2 cutoff_id

/-- The while loop of BatchDeleter.process_table. The guard is
current_id <= cutoff_id and the interrupt flag (sampled at the k-th check)
is unset. Fuel bounds the iteration count; `none` marks the divergence
that the Python loop exhibits when batch_size = 0. Returns the final
state, the total rowcount, the number of batches processed, and the final
current_id. -/
def processLoop (table_name : String) (cutoff_id batch_size : Nat)
    (dry_run : Bool) (intr : Nat → Bool) :
    Nat → Nat → Nat → Int → Nat → DBState →
    Option (DBState × Int × Nat × Nat)
  | 0, _, _, _, _, _ => none
  | fuel + 1, current_id, k, total_deleted, batches_processed, db =>
    if current_id ≤ cutoff_id ∧ intr k = false then
      let end_id := min (current_id + batch_size - 1) cutoff_id
      let step := batchStep db table_name cutoff_id dry_run (current_id, end_id)
      processLoop table_name cutoff_id batch_size dry_run intr fuel
        (current_id + batch_size) (k + 1) (total_deleted + step.1)
        (batches_processed + 1) step.2
    else
      some (db, total_deleted, batches_processed, current_id)

/-- The dictionary returned by process_table. last_processed_id is absent
(none) on the two early-return paths. -/
structure ProcessResult where
  total_deleted : Int
  batches_processed : Nat
  last_processed_id : Option Int
deriving DecidableEq

/-- The cutoff report file as the deleter reads it: the overall
safety_status and the per-entity cutoffs mapping. -/
structure CutoffFile where
  safety_status : String
  cutoffs : List (String × CutoffEntry)
deriving DecidableEq

/-- load_cutoff_config: returns data.get("cutoffs", {}) — only the
cutoffs mapping; safety_status and every other field of the report are
dropped. -/
def load_cutoff_config (f : CutoffFile) : List (String × CutoffEntry) :=
  f.cutoffs

/-- Dictionary lookup in the loaded cutoff configuration. -/
def lookupCfg (cfg : List (String × CutoffEntry)) (t : String) :
    Option CutoffEntry :=
  (cfg.find? (fun p => p.1 == t)).map (fun p => p.2)

/-- BatchDeleter.process_table: raises for a table missing from the
configuration; returns (0, 0) immediately when cutoff_id = 0; resumes at
1 + the last logged batch_end_id and returns (0, 0) when that start
exceeds the cutoff; otherwise runs the batch loop. Fuel cutoff_id + 1
suffices for every batch_size >= 1 (the loop runs at most cutoff_id
batches plus the final guard check). -/
def process_table (db : DBState) (cfg : List (String × CutoffEntry))
    (table_name : String) (batch_size : Nat) (dry_run : Bool)
    (intr : Nat → Bool) : Except String (ProcessResult × DBState) :=
  match lookupCfg cfg table_name with
  | none =>
    Except.error ("No cutoff configuration found for table: " ++ table_name)
  | some c =>
    let cutoff_id := c.cutoff_id
    if cutoff_id = 0 then Except.ok (⟨0, 0, none⟩, db)
    else
      let start_id := get_last_processed_id table_name db.deletion_log + 1
      if cutoff_id < start_id then Except.ok (⟨0, 0, none⟩, db)
      else
        match processLoop table_name cutoff_id batch_size dry_run intr
            (cutoff_id + 1) start_id 0 0 0 db with
        | none => Except.error "batch loop does not terminate"
        | some (db1, total, batches, current) =>
          Except.ok
            (⟨total, batches, some ((current : Int) - (batch_size : Int))⟩, db1)

/-! ## Specification-side description of the batch ranges -/

/-- The number of batches the loop performs from start_id to cutoff_id
with the given batch size: the ceiling of (cutoff_id + 1 - start_id) /
batch_size. -/
def numBatches (start_id cutoff_id batch_size : Nat) : Nat :=
  (cutoff_id + 1 - start_id + (batch_size - 1)) / batch_size

/-- The i-th batch range. -/
def batchRange (start_id batch_size cutoff_id i : Nat) : Nat × Nat :=
  (start_id + batch_size * i,
   min (start_id + batch_size * i + batch_size - 1) cutoff_id)

/-- The full ascending list of batch ranges from start_id to cutoff_id. -/
def batchRanges (start_id cutoff_id batch_size : Nat) : List (Nat × Nat) :=
  (List.range (numBatches start_id cutoff_id batch_size)).map
    (fun i => batchRange start_id batch_size cutoff_id i)

/-- Folding batchStep over a list of ranges: the cumulative effect of the
batch loop on the database, together with the summed rowcounts. -/
def runBatches (table_name : String) (cutoff_id : Nat) (dry_run : Bool) :
    List (Nat × Nat) → DBState → DBState × Int
  | [], db => (db, 0)
  | p :: ps, db =>
    let step := batchStep db table_name cutoff_id dry_run p
    let rest := runBatches table_name cutoff_id dry_run ps step.2
    (rest.1, step.1 + rest.2)

/-! ## Enhanced batch deleter (scripts/enhanced_batch_deleter.py) -/

/-- EnhancedBatchDeleter.load_object_types: the object_type to
object_type_id cache, loaded once from the object table. -/
def load_object_types (db : DBState) : List (String × Nat) :=
  db.object.map (fun o => (o.object_type, o.object_type_id))

/-- Dictionary .get on the object-type cache. -/
def cacheGet (cache : List (String × Nat)) (k : String) : Option Nat :=
  (cache.find? (fun p => p.1 == k)).map (fun p => p.2)

/-- DELETE ... LIMIT n on a list: removes the first n rows matching p,
returning the rowcount and the remaining list. -/
def dropMatching (p : α → Bool) : Nat → List α → Nat × List α
  | _, [] => (0, [])
  | 0, l => (0, l)
  | n + 1, x :: xs =>
    if p x then
      let r := dropMatching p n xs
      (r.1 + 1, r.2)
    else
      let r := dropMatching p (n + 1) xs
      (r.1, x :: r.2)

/-- The while loop of EnhancedBatchDeleter.delete_polymorphic_records on
the one affected table: DELETE ... LIMIT batch_size, stop on a zero
rowcount, commit, stop when the rowcount is below batch_size, else
repeat. Fuel bounds the iteration count (list length + 1 always
suffices). -/
def polyDeleteLoop (p : α → Bool) (batch_size : Nat) :
    Nat → List α → Nat × List α
  | 0, l => (0, l)
  | fuel + 1, l =>
    let d := dropMatching p batch_size l
    if d.1 = 0 then (0, l)
    else if d.1 < batch_size then (d.1, d.2)
    else
      let rest := polyDeleteLoop p batch_size fuel d.2
      (d.1 + rest.1, rest.2)

/-- EnhancedBatchDeleter.delete_polymorphic_records: batched DELETE of
rows of the named table matching both object_id and object_type_id. If
the interrupt flag is set the loop body never runs. The table name is
interpolated into the statement; the names used by the callers are
email, note, phone, address and tenant. -/
def delete_polymorphic_records (interrupted : Bool) (table_name : String)
    (object_id object_type_id batch_size : Nat) (db : DBState) :
    Nat × DBState :=
  if interrupted then (0, db)
  else if table_name == "address" then
    let r := polyDeleteLoop
      (fun (a : AddressRow) =>
        a.object_id == object_id && a.object_type_id == object_type_id)
      batch_size (db.address.length + 1) db.address
    (r.1, { db with address := r.2 })
  else if table_name == "phone" then
    let r := polyDeleteLoop
      (fun (p : PhoneRow) =>
        p.object_id == object_id && p.object_type_id == object_type_id)
      batch_size (db.phone.length + 1) db.phone
    (r.1, { db with phone := r.2 })
  else if table_name == "note" then
    let r := polyDeleteLoop
      (fun (n : NoteRow) =>
        n.object_id == object_id && n.object_type_id == object_type_id)
      batch_size (db.note.length + 1) db.note
    (r.1, { db with note := r.2 })
  else if table_name == "email" then
    let r := polyDeleteLoop
      (fun (em : EmailRow) =>
        em.object_id == object_id && em.object_type_id == object_type_id)
      batch_size (db.email.length + 1) db.email
    (r.1, { db with email := r.2 })
  else if table_name == "tenant" then
    let r := polyDeleteLoop
      (fun (t : TenantRow) =>
        t.object_id == object_id && t.object_type_id == object_type_id)
      batch_size (db.tenant.length + 1) db.tenant
    (r.1, { db with tenant := r.2 })
  else (0, db)

/-- EnhancedBatchDeleter.delete_email_dependencies: selects the email ids
of the owning contact, then deletes the attachment or preview rows of
each. If the interrupt flag is set before the per-email loop starts,
nothing is deleted. -/
def delete_email_dependencies (interrupted : Bool)
    (contact_id contact_object_type_id : Nat) (dependency_table : String)
    (db : DBState) : Nat × DBState :=
  if interrupted then (0, db)
  else
    let email_ids := (db.email.filter (fun em =>
      em.object_id == contact_id
      && em.object_type_id == contact_object_type_id)).map
      (fun em => em.email_id)
    if dependency_table == "email_attachment" then
      let del := fun (ea : EmailAttachmentRow) => email_ids.contains ea.email_id
      ((db.email_attachment.countP del : Nat),
       { db with email_attachment :=
          db.email_attachment.filter (fun x => !(del x)) })
    else if dependency_table == "email_preview" then
      let del := fun (ep : EmailPreviewRow) => email_ids.contains ep.email_id
      ((db.email_preview.countP del : Nat),
       { db with email_preview :=
          db.email_preview.filter (fun x => !(del x)) })
    else (0, db)

/-- EnhancedBatchDeleter.delete_contact_dependencies. The Contact object
type id is taken from the cache; Python falsiness makes both a missing
key and the value 0 take the early-return branch, which only logs a
warning and returns the empty summary. Otherwise the cascade runs:
level 1 (email_attachment, email_preview, note, phone, address), level 2
(email), level 3 (tenant), level 4 (the direct foreign-key tables). The
raise statements of the Python code re-raise database exceptions, which
the pure model does not produce, so the error branch never fires here;
the interrupt flag is a constant snapshot for the run. -/
def delete_contact_dependencies (interrupted : Bool)
    (cache : List (String × Nat)) (contact_id : Nat) (db : DBState) :
    List (String × Nat) × DBState :=
  let contact_object_type_id := (cacheGet cache "Contact").getD 0
  if contact_object_type_id = 0 then ([], db)
  else if interrupted then ([], db)
  else
    let r1 := delete_email_dependencies false contact_id
      contact_object_type_id "email_attachment" db
    let r2 := delete_email_dependencies false contact_id
      contact_object_type_id "email_preview" r1.2
    let r3 := delete_polymorphic_records false "note" contact_id
      contact_object_type_id 1000 r2.2
    let r4 := delete_polymorphic_records false "phone" contact_id
      contact_object_type_id 1000 r3.2
    let r5 := delete_polymorphic_records false "address" contact_id
      contact_object_type_id 1000 r4.2
    let r6 := delete_polymorphic_records false "email" contact_id
      contact_object_type_id 1000 r5.2
    let r7 := delete_polymorphic_records false "tenant" contact_id
      contact_object_type_id 1000 r6.2
    let db7 := r7.2
    let delBank := fun (b : BankRow) => b.contact_id == contact_id
    let c8 := db7.bank.countP delBank
    let db8 := { db7 with bank := db7.bank.filter (fun x => !(delBank x)) }
    let delSub := fun (s : SubscriptionRow) => s.contact_id == contact_id
    let c9 := db8.subscription.countP delSub
    let db9 :=
      { db8 with subscription := db8.subscription.filter (fun x => !(delSub x)) }
    let delCb := fun (cb : ContactBatchRow) => cb.contact_id == contact_id
    let c10 := db9.contact_batch.countP delCb
    let db10 :=
      { db9 with contact_batch :=
          db9.contact_batch.filter (fun x => !(delCb x)) }
    let delClu := fun (u : ContactLogicalUnitRow) => u.contact_id == contact_id
    let c11 := db10.contact_logical_unit.countP delClu
    let db11 :=
      { db10 with contact_logical_unit :=
          db10.contact_logical_unit.filter (fun x => !(delClu x)) }
    let delNap := fun (n : NesAnetCustomerProfileRow) =>
      n.contact_id == contact_id
    let c12 := db11.nes_anet_customer_profile.countP delNap
    let db12 :=
      { db11 with nes_anet_customer_profile :=
          db11.nes_anet_customer_profile.filter (fun x => !(delNap x)) }
    ([("email_attachment", r1.1), ("email_preview", r2.1), ("note", r3.1),
      ("phone", r4.1), ("address", r5.1), ("email", r6.1), ("tenant", r7.1),
      ("bank", c8), ("subscription", c9), ("contact_batch", c10),
      ("contact_logical_unit", c11), ("nes_anet_customer_profile", c12)],
     db12)

/-! ## Concrete instances used by the witnesses and counterexamples -/

/-- A database whose single reading was imported inside the 2-year
window. -/
def dbC1 : DBState := { now := 10000, reading := [⟨5, 0, 9999⟩] }

/-- A database with one reading outside the window (id 6999) and the
minimum in-window reading at id 7000. -/
def dbC3 : DBState := { now := 10000, reading := [⟨6999, 0, 0⟩, ⟨7000, 1, 9500⟩] }

/-- A database on which the contact phase would succeed, used to show
that a reading-phase failure still aborts the whole report. -/
def dbC4 : DBState := { now := 10000, contact := [⟨2, 1, "Acme", 0, 0, 2⟩] }

/-- A database holding one deletable contact (deactivated tenant, no
recent financial activity). -/
def dbC2 : DBState :=
  { now := 10000
    contact := [⟨3, 1, "Acme", 0, 0, 3⟩]
    tenant := [⟨3, 3, 1, some 0⟩] }

/-- A cutoff report file whose only entry is flagged unsafe and whose
aggregate status requires review. -/
def fC2 : CutoffFile :=
  { safety_status := "REQUIRES_REVIEW"
    cutoffs := [("contact", ⟨5, 1, false, 7445⟩)] }

/-- The same report file with the safety fields flipped to safe. -/
def fC2b : CutoffFile :=
  { safety_status := "SAFE"
    cutoffs := [("contact", ⟨5, 1, true, 7445⟩)] }

/-- A small reading database for the deleter witnesses. -/
def dbC5 : DBState := { now := 10000, reading := [⟨1, 0, 0⟩] }

/-- The reading cutoff entry used by the deleter witnesses. -/
def cC5 : CutoffEntry := ⟨5, 1, true, 0⟩

/-- A report file with a reading cutoff of 5. -/
def fC5 : CutoffFile := { safety_status := "SAFE", cutoffs := [("reading", cC5)] }

/-- Database for the resume-idempotence witness. -/
def dbC6 : DBState := { now := 10000, reading := [⟨1, 0, 0⟩] }

/-- Report file for the resume-idempotence witness. -/
def fC6 : CutoffFile :=
  { safety_status := "SAFE", cutoffs := [("reading", ⟨5, 1, true, 0⟩)] }

/-- The state after the first full deleter run on dbC6. -/
def dbC6next : DBState :=
  ((process_table dbC6 (load_cutoff_config fC6) "reading" 2 false
      (fun _ => false)).toOption.map (fun x => x.2)).getD dbC6

/-- The result of the first full deleter run on dbC6. -/
def rC6 : ProcessResult :=
  ((process_table dbC6 (load_cutoff_config fC6) "reading" 2 false
      (fun _ => false)).toOption.map (fun x => x.1)).getD ⟨0, 0, none⟩

/-- Database for the dry-run comparison. -/
def dbC7 : DBState := { now := 10000, reading := [⟨1, 0, 0⟩] }

/-- Report file for the dry-run comparison: reading cutoff 4, so two
batches of size 2. -/
def fC7 : CutoffFile :=
  { safety_status := "SAFE", cutoffs := [("reading", ⟨4, 1, true, 0⟩)] }

/-- Database for the interrupt witness. -/
def dbC8 : DBState := { now := 10000, reading := [⟨1, 0, 0⟩] }

/-- Report file for the interrupt witness: reading cutoff 5 with batch
size 2 gives three batch ranges. -/
def fC8 : CutoffFile :=
  { safety_status := "SAFE", cutoffs := [("reading", ⟨5, 1, true, 0⟩)] }

/-- An interrupt schedule first observed set at the second check. -/
def intrC8 (i : Nat) : Bool := decide (1 ≤ i)

/-- A database whose object table lacks the name the enhanced deleter
looks up: it holds dstContact, not Contact, so the cache resolves
nothing. The address row belongs to contact 3. -/
def dbC9 : DBState :=
  { now := 10000
    object := [⟨1, "dstContact", "dstContact"⟩]
    address := [⟨1, 3, 1⟩] }

/-- A database with two address rows, one owned by contact 3 with object
type 7. -/
def dbC9w : DBState := { now := 10000, address := [⟨1, 3, 7⟩, ⟨2, 4, 7⟩] }

/-- Database for the cutoff-zero witness. -/
def dbC10 : DBState := { now := 10000, contact := [⟨3, 1, "Acme", 0, 0, 3⟩] }

/-- The failure-default cutoff entry with cutoff_id = 0. -/
def cC10 : CutoffEntry := ⟨0, 0, false, 0⟩

/-- Report file whose contact entry carries the failure default. -/
def fC10 : CutoffFile :=
  { safety_status := "REQUIRES_REVIEW", cutoffs := [("contact", cC10)] }

/-! ## Helper lemmas: SQL aggregates -/

lemma foldl_min_le_init (l : List Nat) : ∀ a : Nat, l.foldl min a ≤ a := by
  induction l with
  | nil => intro a; simp
  | cons x xs ih =>
    intro a
    calc (x :: xs).foldl min a = xs.foldl min (min a x) := rfl
    _ ≤ min a x := ih (min a x)
    _ ≤ a := min_le_left _ _

lemma foldl_min_le_mem (l : List Nat) :
    ∀ a x, x ∈ l → l.foldl min a ≤ x := by
  induction l with
  | nil => intro a x hx; cases hx
  | cons y ys ih =>
    intro a x hx
    rcases List.mem_cons.1 hx with h | h
    · subst h
      calc (x :: ys).foldl min a = ys.foldl min (min a x) := rfl
      _ ≤ min a x := foldl_min_le_init ys (min a x)
      _ ≤ x := min_le_right _ _
    · exact ih (min a y) x h

lemma foldl_min_mem (l : List Nat) : ∀ a, l.foldl min a ∈ a :: l := by
  induction l with
  | nil => intro a; simp
  | cons y ys ih =>
    intro a
    have h := ih (min a y)
    rcases List.mem_cons.1 h with h1 | h1
    · rcases min_choice a y with h2 | h2
      · exact List.mem_cons.2 (Or.inl (by rw [show (y :: ys).foldl min a
          = ys.foldl min (min a y) from rfl, h1, h2]))
      · refine List.mem_cons.2 (Or.inr (List.mem_cons.2 (Or.inl ?_)))
        rw [show (y :: ys).foldl min a = ys.foldl min (min a y) from rfl, h1, h2]
    · exact List.mem_cons.2 (Or.inr (List.mem_cons.2 (Or.inr h1)))

/-- Characterization of COALESCE(MIN(l), 0): an attained lower bound is
the minimum. -/
lemma sqlMinIds_eq {l : List Nat} {m : Nat} (hm : m ∈ l)
    (hlb : ∀ x ∈ l, m ≤ x) : sqlMinIds l = m := by
  cases l with
  | nil => cases hm
  | cons x xs =>
    refine le_antisymm ?_ ?_
    · rcases List.mem_cons.1 hm with h | h
      · subst h; exact foldl_min_le_init xs m
      · exact foldl_min_le_mem xs x m h
    · exact hlb _ (foldl_min_mem xs x)

lemma le_foldl_max_init (l : List Nat) : ∀ a : Nat, a ≤ l.foldl max a := by
  induction l with
  | nil => intro a; simp
  | cons x xs ih =>
    intro a
    calc a ≤ max a x := le_max_left _ _
    _ ≤ xs.foldl max (max a x) := ih (max a x)
    _ = (x :: xs).foldl max a := rfl

lemma le_foldl_max_mem (l : List Nat) :
    ∀ a x, x ∈ l → x ≤ l.foldl max a := by
  induction l with
  | nil => intro a x hx; cases hx
  | cons y ys ih =>
    intro a x hx
    rcases List.mem_cons.1 hx with h | h
    · subst h
      calc x ≤ max a x := le_max_right _ _
      _ ≤ ys.foldl max (max a x) := le_foldl_max_init ys (max a x)
      _ = (x :: ys).foldl max a := rfl
    · exact ih (max a y) x h

lemma foldl_max_mem (l : List Nat) : ∀ a, l.foldl max a ∈ a :: l := by
  induction l with
  | nil => intro a; simp
  | cons y ys ih =>
    intro a
    have h := ih (max a y)
    rcases List.mem_cons.1 h with h1 | h1
    · rcases max_choice a y with h2 | h2
      · exact List.mem_cons.2 (Or.inl (by rw [show (y :: ys).foldl max a
          = ys.foldl max (max a y) from rfl, h1, h2]))
      · refine List.mem_cons.2 (Or.inr (List.mem_cons.2 (Or.inl ?_)))
        rw [show (y :: ys).foldl max a = ys.foldl max (max a y) from rfl, h1, h2]
    · exact List.mem_cons.2 (Or.inr (List.mem_cons.2 (Or.inr h1)))

/-- Every element is at most COALESCE(MAX(l), 0). -/
lemma le_sqlMaxIds {l : List Nat} {x : Nat} (hx : x ∈ l) : x ≤ sqlMaxIds l := by
  cases l with
  | nil => cases hx
  | cons y ys =>
    rcases List.mem_cons.1 hx with h | h
    · subst h; exact le_foldl_max_init ys x
    · exact le_foldl_max_mem ys y x h

/-- Characterization of COALESCE(MAX(l), 0): an attained upper bound is
the maximum. -/
lemma sqlMaxIds_eq {l : List Nat} {M : Nat} (hM : M ∈ l)
    (hub : ∀ x ∈ l, x ≤ M) : sqlMaxIds l = M := by
  cases l with
  | nil => cases hM
  | cons x xs =>
    refine le_antisymm ?_ ?_
    · exact hub _ (foldl_max_mem xs x)
    · exact le_sqlMaxIds hM

/-! ## Helper lemmas: batch range arithmetic -/

lemma numBatches_eq_zero {s c bs : Nat} (hbs : 1 ≤ bs) :
    numBatches s c bs = 0 ↔ c < s := by
  unfold numBatches
  rw [Nat.div_eq_zero_iff (by omega : 0 < bs)]
  omega

lemma numBatches_succ {s c bs : Nat} (hbs : 1 ≤ bs) (hsc : s ≤ c) :
    numBatches s c bs = numBatches (s + bs) c bs + 1 := by
  unfold numBatches
  rcases le_or_lt (c + 1 - s) bs with h | h
  · have h1 : c + 1 - (s + bs) = 0 := by omega
    rw [h1]
    have h2 : c + 1 - s + (bs - 1) = (c + 1 - s - 1) + bs := by omega
    rw [h2, Nat.add_div_right _ (by omega : 0 < bs),
      Nat.div_eq_of_lt (by omega : c + 1 - s - 1 < bs),
      Nat.div_eq_of_lt (by omega : 0 + (bs - 1) < bs)]
  · have h1 : c + 1 - (s + bs) = c + 1 - s - bs := by omega
    have h2 : c + 1 - s + (bs - 1) = (c + 1 - s - bs + (bs - 1)) + bs := by
      omega
    rw [h1, h2, Nat.add_div_right _ (by omega : 0 < bs)]

lemma batchRanges_nil {s c bs : Nat} (h : c < s) : batchRanges s c bs = [] := by
  unfold batchRanges numBatches
  have h1 : c + 1 - s = 0 := by omega
  rw [h1]
  rcases Nat.eq_zero_or_pos bs with hbs | hbs
  · subst hbs; rfl
  · rw [Nat.div_eq_of_lt (by omega : 0 + (bs - 1) < bs)]; rfl

lemma batchRange_shift {s bs c i : Nat} :
    batchRange (s + bs) bs c i = batchRange s bs c (i + 1) := by
  unfold batchRange
  rw [show s + bs + bs * i = s + bs * (i + 1) from by ring]

lemma batchRanges_cons {s c bs : Nat} (hbs : 1 ≤ bs) (hsc : s ≤ c) :
    batchRanges s c bs
      = (s, min (s + bs - 1) c) :: batchRanges (s + bs) c bs := by
  unfold batchRanges
  rw [numBatches_succ hbs hsc, List.range_succ_eq_map, List.map_cons,
    List.map_map, List.cons_eq_cons]
  constructor
  · unfold batchRange; simp
  · refine List.map_congr_left ?_
    intro i _
    simp only [Function.comp_apply, Nat.succ_eq_add_one]
    exact batchRange_shift.symm

lemma batchRanges_length {s c bs : Nat} :
    (batchRanges s c bs).length = numBatches s c bs := by
  unfold batchRanges; simp

lemma batchRanges_mem_bounds {s c bs : Nat} {p : Nat × Nat} (hbs : 1 ≤ bs)
    (hp : p ∈ batchRanges s c bs) :
    s ≤ p.1 ∧ p.1 ≤ p.2 ∧ p.2 ≤ c ∧ p.2 + 1 ≤ p.1 + bs := by
  unfold batchRanges at hp
  rw [List.mem_map] at hp
  obtain ⟨i, hi, rfl⟩ := hp
  rw [List.mem_range] at hi
  unfold numBatches at hi
  unfold batchRange
  have h1 : (i + 1) * bs ≤ (c + 1 - s + (bs - 1)) / bs * bs :=
    Nat.mul_le_mul_right bs hi
  have h2 : (c + 1 - s + (bs - 1)) / bs * bs ≤ c + 1 - s + (bs - 1) :=
    Nat.div_mul_le_self _ _
  have h3 : (i + 1) * bs = bs * i + bs := by ring
  have h4 : bs * i + bs ≤ c + 1 - s + (bs - 1) := by
    rw [← h3]; exact le_trans h1 h2
  have h5 := min_le_left (s + bs * i + bs - 1) c
  have h6 := min_le_right (s + bs * i + bs - 1) c
  have h7 : s + bs * i ≤ min (s + bs * i + bs - 1) c := by
    refine le_min (by omega) ?_
    generalize bs * i = A at h4 ⊢
    omega
  generalize bs * i = A at h4 h5 h6 h7 ⊢
  refine ⟨by omega, h7, h6, by omega⟩

lemma batchRanges_cover {s c bs : Nat} (hbs : 1 ≤ bs) (x : Nat) :
    (∃ p ∈ batchRanges s c bs, p.1 ≤ x ∧ x ≤ p.2) ↔ (s ≤ x ∧ x ≤ c) := by
  constructor
  · rintro ⟨p, hp, h1, h2⟩
    have hb := batchRanges_mem_bounds hbs hp
    exact ⟨le_trans hb.1 h1, le_trans h2 hb.2.2.1⟩
  · rintro ⟨hsx, hxc⟩
    have hdm := Nat.div_add_mod (x - s) bs
    have hmlt : (x - s) % bs < bs := Nat.mod_lt _ (by omega)
    refine ⟨batchRange s bs c ((x - s) / bs), ?_, ?_, ?_⟩
    · unfold batchRanges
      rw [List.mem_map]
      refine ⟨(x - s) / bs, List.mem_range.2 ?_, rfl⟩
      unfold numBatches
      have key : ((x - s) / bs + 1) * bs ≤ c + 1 - s + (bs - 1) := by
        have h3 : ((x - s) / bs + 1) * bs = bs * ((x - s) / bs) + bs := by
          ring
        rw [h3]
        generalize bs * ((x - s) / bs) = Q at hdm ⊢
        omega
      have := (Nat.le_div_iff_mul_le (by omega : 0 < bs)).2 key
      omega
    · unfold batchRange
      generalize bs * ((x - s) / bs) = Q at hdm ⊢
      omega
    · unfold batchRange
      refine le_min ?_ hxc
      generalize bs * ((x - s) / bs) = Q at hdm ⊢
      omega

lemma batchRanges_pairwise {s c bs : Nat} (hbs : 1 ≤ bs) :
    List.Pairwise (fun p q : Nat × Nat => p.2 < q.1) (batchRanges s c bs) := by
  unfold batchRanges
  refine List.Pairwise.map _ ?_ (List.pairwise_lt_range _)
  intro i j hij
  unfold batchRange
  have h1 : bs * (i + 1) ≤ bs * j := Nat.mul_le_mul_left bs (by omega)
  have h2 : bs * (i + 1) = bs * i + bs := by ring
  have h3 := min_le_left (s + bs * i + bs - 1) c
  generalize bs * i = A at h2 h3 ⊢
  generalize bs * j = B at h1 h2 ⊢
  omega

lemma le_mul_numBatches {s c bs : Nat} (hbs : 1 ≤ bs) :
    c + 1 - s ≤ bs * numBatches s c bs := by
  unfold numBatches
  have hdm := Nat.div_add_mod (c + 1 - s + (bs - 1)) bs
  have hmlt : (c + 1 - s + (bs - 1)) % bs < bs := Nat.mod_lt _ (by omega)
  generalize hB : bs * ((c + 1 - s + (bs - 1)) / bs) = B at hdm ⊢
  omega

lemma batchRanges_last_end {s c bs : Nat} (hbs : 1 ≤ bs) (hsc : s ≤ c) :
    ∃ p ∈ batchRanges s c bs, p.2 = c := by
  have hn : 1 ≤ numBatches s c bs := by
    rcases Nat.eq_zero_or_pos (numBatches s c bs) with h | h
    · exact absurd ((numBatches_eq_zero hbs).1 h) (by omega)
    · exact h
  refine ⟨batchRange s bs c (numBatches s c bs - 1), ?_, ?_⟩
  · unfold batchRanges
    rw [List.mem_map]
    exact ⟨numBatches s c bs - 1, List.mem_range.2 (by omega), rfl⟩
  · unfold batchRange
    have hle := le_mul_numBatches (s := s) (c := c) hbs
    have hmul : bs * (numBatches s c bs - 1) + bs = bs * numBatches s c bs := by
      have h1 : bs * (numBatches s c bs - 1 + 1)
          = bs * (numBatches s c bs - 1) + bs := by ring
      rw [← h1, show numBatches s c bs - 1 + 1 = numBatches s c bs from by omega]
    refine min_eq_right ?_
    generalize bs * (numBatches s c bs - 1) = A at hmul ⊢
    generalize bs * numBatches s c bs = B at hmul hle
    omega

lemma numBatches_le {s c bs : Nat} (hbs : 1 ≤ bs) (hs : 1 ≤ s) :
    numBatches s c bs ≤ c := by
  have h1 : numBatches s c bs ≤ c + 1 - s := by
    unfold numBatches
    calc (c + 1 - s + (bs - 1)) / bs
        ≤ (bs * (c + 1 - s) + (bs - 1)) / bs := by
          refine Nat.div_le_div_right ?_
          have h := Nat.le_mul_of_pos_right (c + 1 - s) (by omega : 0 < bs)
          rw [mul_comm] at h
          omega
    _ = c + 1 - s + (bs - 1) / bs := Nat.mul_add_div (by omega : 0 < bs) _ _
    _ = c + 1 - s := by
          rw [Nat.div_eq_of_lt (by omega : bs - 1 < bs), Nat.add_zero]
  omega

/-! ## Helper lemmas: the batch loop -/

/-- A non-dry batch step appends exactly one deletion_log row carrying
the table name and the processed range. -/
lemma batchStep_false_log (db : DBState) (t : String) (c : Nat)
    (p : Nat × Nat) :
    ((batchStep db t c false p).2).deletion_log
      = db.deletion_log
        ++ [⟨t, p.1, p.2, (batchStep db t c false p).1, 0⟩] := by
  by_cases h : (t == "reading") = true
  · rw [beq_iff_eq] at h
    subst h
    rfl
  · have hrows : (account_batch_rows db t p.1 p.2 c).2.deletion_log
        = db.deletion_log := by
      unfold account_batch_rows
      by_cases h1 : (t == "email_attachment") = true
      · rw [if_pos h1]
      · rw [if_neg h1]
        by_cases h2 : (t == "email") = true
        · rw [if_pos h2]
        · rw [if_neg h2]
          by_cases h3 : (t == "invoice_detail") = true
          · rw [if_pos h3]
          · rw [if_neg h3]
            by_cases h4 : (t == "invoice") = true
            · rw [if_pos h4]
            · rw [if_neg h4]
              by_cases h5 : (t == "address") = true
              · rw [if_pos h5]
              · rw [if_neg h5]
                by_cases h6 : (t == "phone") = true
                · rw [if_pos h6]
                · rw [if_neg h6]
                  by_cases h7 : (t == "tenant") = true
                  · rw [if_pos h7]
                  · rw [if_neg h7]
                    by_cases h8 : (t == "contact") = true
                    · rw [if_pos h8]
                    · rw [if_neg h8]
    simp only [batchStep, Bool.false_eq_true, if_false, h,
      delete_account_related_batch, log_batch_deletion]
    rw [hrows]

/-- A dry batch step does nothing and reports a zero rowcount. -/
lemma batchStep_dry (db : DBState) (t : String) (c : Nat) (p : Nat × Nat) :
    batchStep db t c true p = (0, db) := rfl

/-- A dry run of the fold leaves the state unchanged and sums to zero. -/
lemma runBatches_dry (t : String) (c : Nat) (ps : List (Nat × Nat)) :
    ∀ db, runBatches t c true ps db = (db, 0) := by
  induction ps with
  | nil => intro db; rfl
  | cons p ps ih =>
    intro db
    simp [runBatches, batchStep_dry, ih]

/-- A real run of the fold appends one deletion_log row per range, in
order, each carrying the table name and the range bounds. -/
lemma runBatches_log (t : String) (c : Nat) (ps : List (Nat × Nat)) :
    ∀ db : DBState, ∃ ents : List LogEntry,
      ((runBatches t c false ps db).1).deletion_log
        = db.deletion_log ++ ents
      ∧ ents.map (fun e => (e.table_name, e.batch_start_id, e.batch_end_id))
          = ps.map (fun p => (t, p.1, p.2)) := by
  induction ps with
  | nil => exact fun db => ⟨[], by simp [runBatches], rfl⟩
  | cons p ps ih =>
    intro db
    obtain ⟨ents, h1, h2⟩ := ih (batchStep db t c false p).2
    refine ⟨⟨t, p.1, p.2, (batchStep db t c false p).1, 0⟩ :: ents, ?_, ?_⟩
    · show ((runBatches t c false ps (batchStep db t c false p).2).1).deletion_log = _
      rw [h1, batchStep_false_log]
      simp
    · simp [h2]

/-- Characterization of the process_table while loop: with at least one
unit of batch size, if the interrupt flag is first observed set at the
j-th check (or never, when j is the full batch count), the loop performs
exactly the first j batch ranges and stops, provided at least j + 1 units
of fuel. -/
lemma processLoop_spec (t : String) (c bs : Nat) (dry : Bool)
    (intr : Nat → Bool) (hbs : 1 ≤ bs) :
    ∀ (j fuel cur k : Nat) (tot : Int) (b : Nat) (db : DBState),
      j ≤ numBatches cur c bs →
      (∀ i, i < j → intr (k + i) = false) →
      (j < numBatches cur c bs → intr (k + j) = true) →
      j + 1 ≤ fuel →
      processLoop t c bs dry intr fuel cur k tot b db =
        some ((runBatches t c dry ((batchRanges cur c bs).take j) db).1,
              tot + (runBatches t c dry ((batchRanges cur c bs).take j) db).2,
              b + j, cur + bs * j) := by
  intro j
  induction j with
  | zero =>
    intro fuel cur k tot b db hj hj1 hj2 hfuel
    match fuel, hfuel with
    | fuel + 1, _ =>
      rw [processLoop]
      rw [if_neg ?_]
      · simp [runBatches]
      · rintro ⟨hcur, hflag⟩
        rcases Nat.eq_zero_or_pos (numBatches cur c bs) with h | h
        · exact absurd ((numBatches_eq_zero hbs).1 h) (by omega)
        · have := hj2 h
          rw [Nat.add_zero] at this
          rw [this] at hflag
          cases hflag
  | succ j ih =>
    intro fuel cur k tot b db hj hj1 hj2 hfuel
    match fuel, hfuel with
    | fuel + 1, _ =>
      have hn : 1 ≤ numBatches cur c bs := by omega
      have hcur : cur ≤ c := by
        by_contra h
        push_neg at h
        have := (numBatches_eq_zero (s := cur) (c := c) hbs).2 h
        omega
      have hk : intr k = false := by
        have := hj1 0 (by omega)
        rwa [Nat.add_zero] at this
      have hsucc := numBatches_succ (s := cur) (c := c) hbs hcur
      rw [processLoop]
      rw [if_pos ⟨hcur, hk⟩]
      rw [ih fuel (cur + bs) (k + 1) _ (b + 1) _ (by omega)
        (fun i hi => by
          have := hj1 (i + 1) (by omega)
          rwa [show k + (i + 1) = k + 1 + i from by omega] at this)
        (fun hlt => by
          have := hj2 (by omega)
          rwa [show k + (j + 1) = k + 1 + j from by omega] at this)
        (by omega)]
      rw [batchRanges_cons hbs hcur, List.take_succ_cons]
      show some ((runBatches t c dry _ _).1, _, _, _) = _
      rw [show runBatches t c dry
            ((cur, min (cur + bs - 1) c) :: (batchRanges (cur + bs) c bs).take j) db
          = ((runBatches t c dry ((batchRanges (cur + bs) c bs).take j)
                (batchStep db t c dry (cur, min (cur + bs - 1) c)).2).1,
             (batchStep db t c dry (cur, min (cur + bs - 1) c)).1
              + (runBatches t c dry ((batchRanges (cur + bs) c bs).take j)
                  (batchStep db t c dry (cur, min (cur + bs - 1) c)).2).2)
        from rfl]
      refine congrArg some ?_
      refine Prod.ext rfl (Prod.ext ?_ (Prod.ext ?_ ?_)) <;> simp only
      · rw [add_assoc]
      · omega
      · rw [show cur + bs * (j + 1) = cur + bs + bs * j from by ring]

/-! ## Helper lemmas: limited deletes of the enhanced deleter -/

lemma dropMatching_succ_cons (p : α → Bool) (n : Nat) (x : α) (xs : List α) :
    dropMatching p (n + 1) (x :: xs)
      = if p x = true
        then ((dropMatching p n xs).1 + 1, (dropMatching p n xs).2)
        else ((dropMatching p (n + 1) xs).1, x :: (dropMatching p (n + 1) xs).2) :=
  rfl

lemma dropMatching_count (p : α → Bool) :
    ∀ (l : List α) (n : Nat), (dropMatching p n l).1 = min n (l.countP p) := by
  intro l
  induction l with
  | nil => intro n; simp [dropMatching]
  | cons x xs ih =>
    intro n
    cases n with
    | zero => simp [dropMatching]
    | succ n =>
      by_cases hx : p x = true
      · rw [dropMatching_succ_cons, if_pos hx]
        rw [List.countP_cons_of_pos _ _ hx]
        have := ih n
        omega
      · rw [dropMatching_succ_cons, if_neg hx]
        rw [List.countP_cons_of_neg _ _ (by simp [hx])]
        exact ih (n + 1)

lemma dropMatching_filter (p : α → Bool) :
    ∀ (l : List α) (n : Nat),
      (dropMatching p n l).2.filter (fun x => !(p x))
        = l.filter (fun x => !(p x)) := by
  intro l
  induction l with
  | nil => intro n; simp [dropMatching]
  | cons x xs ih =>
    intro n
    cases n with
    | zero => simp [dropMatching]
    | succ n =>
      by_cases hx : p x = true
      · rw [dropMatching_succ_cons, if_pos hx]
        rw [List.filter_cons_of_neg (by simp [hx])]
        exact ih n
      · rw [dropMatching_succ_cons, if_neg hx]
        rw [Bool.not_eq_true] at hx
        simp [List.filter_cons, hx, ih (n + 1)]

lemma dropMatching_countP (p : α → Bool) :
    ∀ (l : List α) (n : Nat),
      ((dropMatching p n l).2).countP p = l.countP p - n := by
  intro l
  induction l with
  | nil => intro n; simp [dropMatching]
  | cons x xs ih =>
    intro n
    cases n with
    | zero => simp [dropMatching]
    | succ n =>
      by_cases hx : p x = true
      · rw [dropMatching_succ_cons, if_pos hx]
        dsimp only
        rw [List.countP_cons_of_pos _ _ hx]
        have := ih n
        omega
      · rw [dropMatching_succ_cons, if_neg hx]
        dsimp only
        rw [List.countP_cons_of_neg _ _ (by simp [hx]),
          List.countP_cons_of_neg _ _ (by simp [hx])]
        exact ih (n + 1)

lemma dropMatching_all (p : α → Bool) :
    ∀ (l : List α) (n : Nat), l.countP p ≤ n →
      (dropMatching p n l).2 = l.filter (fun x => !(p x)) := by
  intro l
  induction l with
  | nil => intro n _; simp [dropMatching]
  | cons x xs ih =>
    intro n hn
    cases n with
    | zero =>
      have h0 : (x :: xs).countP p = 0 := by omega
      rw [show dropMatching p 0 (x :: xs) = (0, x :: xs) from rfl]
      rw [eq_comm, List.filter_eq_self]
      intro a ha
      have := List.countP_eq_zero.1 h0 a ha
      simp [this]
    | succ n =>
      by_cases hx : p x = true
      · rw [dropMatching_succ_cons, if_pos hx]
        rw [List.filter_cons_of_neg (by simp [hx])]
        refine ih n ?_
        rw [List.countP_cons_of_pos _ _ hx] at hn
        omega
      · rw [dropMatching_succ_cons, if_neg hx]
        rw [List.filter_cons_of_pos (by simp [hx])]
        refine congrArg (x :: ·) (ih (n + 1) ?_)
        rw [List.countP_cons_of_neg _ _ (by simp [hx])] at hn
        omega

/-- With a positive batch size and enough fuel, the LIMIT-batched delete
loop removes exactly the matching rows, reporting their count. -/
lemma polyDeleteLoop_complete (p : α → Bool) (bs : Nat) :
    ∀ (fuel : Nat) (l : List α), 1 ≤ bs → l.countP p < fuel →
      polyDeleteLoop p bs fuel l
        = (l.countP p, l.filter (fun x => !(p x))) := by
  intro fuel
  induction fuel with
  | zero => intro l _ h; omega
  | succ fuel ih =>
    intro l hbs hfuel
    rw [show polyDeleteLoop p bs (fuel + 1) l
        = (let d := dropMatching p bs l;
           if d.1 = 0 then (0, l)
           else if d.1 < bs then (d.1, d.2)
           else
             let rest := polyDeleteLoop p bs fuel d.2
             (d.1 + rest.1, rest.2)) from rfl]
    simp only
    have hcnt := dropMatching_count p l bs
    by_cases h0 : l.countP p = 0
    · rw [if_pos (by omega)]
      rw [h0, eq_comm]
      refine Prod.ext rfl ?_
      simp only
      rw [List.filter_eq_self]
      intro a ha
      have := List.countP_eq_zero.1 h0 a ha
      simp [this]
    · rw [if_neg (by omega)]
      by_cases hlt : (dropMatching p bs l).1 < bs
      · rw [if_pos hlt]
        have hle : l.countP p ≤ bs := by omega
        have heq : (dropMatching p bs l).1 = l.countP p := by omega
        rw [heq, dropMatching_all p l bs hle]
      · rw [if_neg hlt]
        have hbsle : bs ≤ l.countP p := by omega
        have heq : (dropMatching p bs l).1 = bs := by omega
        have hrec := ih (dropMatching p bs l).2 hbs (by
          rw [dropMatching_countP]
          omega)
        rw [heq, hrec, dropMatching_countP, dropMatching_filter]
        refine Prod.ext ?_ rfl
        simp only
        omega

/-! ## Helper lemmas: configuration lookup and resume position -/

/-- Lookup respects equality of the cutoff_id projections of two
configurations. -/
lemma lookupCfg_map_cutoff {cfg cfg' : List (String × CutoffEntry)}
    (h : cfg.map (fun p => (p.1, p.2.cutoff_id))
        = cfg'.map (fun p => (p.1, p.2.cutoff_id))) (t : String) :
    (lookupCfg cfg t).map (fun c => c.cutoff_id)
      = (lookupCfg cfg' t).map (fun c => c.cutoff_id) := by
  induction cfg generalizing cfg' with
  | nil =>
    have : cfg' = [] := by
      cases cfg' with
      | nil => rfl
      | cons q qs => simp at h
    subst this
    rfl
  | cons p ps ih =>
    cases cfg' with
    | nil => simp at h
    | cons q qs =>
      simp only [List.map_cons, List.cons_eq_cons, Prod.mk.injEq] at h
      obtain ⟨⟨hname, hcut⟩, htail⟩ := h
      unfold lookupCfg
      simp only [List.find?]
      rw [hname]
      by_cases hq : (q.1 == t) = true
      · rw [hq]
        simp [hcut]
      · rw [Bool.not_eq_true] at hq
        rw [hq]
        simpa [lookupCfg] using ih htail

/-- Every log entry appended by a full run carries the table name and a
range from the batch range list. -/
lemma ents_fields {t : String} {ents : List LogEntry} {ps : List (Nat × Nat)}
    (h : ents.map (fun e => (e.table_name, e.batch_start_id, e.batch_end_id))
        = ps.map (fun p => (t, p.1, p.2))) :
    ∀ e ∈ ents, e.table_name = t ∧ ∃ p ∈ ps, e.batch_end_id = p.2 := by
  intro e he
  have hmem : (e.table_name, e.batch_start_id, e.batch_end_id)
      ∈ ps.map (fun p => (t, p.1, p.2)) := by
    rw [← h]
    exact List.mem_map_of_mem _ he
  rw [List.mem_map] at hmem
  obtain ⟨p, hp, heq⟩ := hmem
  rw [Prod.mk.injEq, Prod.mk.injEq] at heq
  exact ⟨heq.1.symm, p, hp, heq.2.2.symm⟩

/-- Conversely, every batch range is the range of some appended entry. -/
lemma ents_surj {t : String} {ents : List LogEntry} {ps : List (Nat × Nat)}
    (h : ents.map (fun e => (e.table_name, e.batch_start_id, e.batch_end_id))
        = ps.map (fun p => (t, p.1, p.2))) :
    ∀ p ∈ ps, ∃ e ∈ ents, e.table_name = t ∧ e.batch_end_id = p.2 := by
  intro p hp
  have hmem : (t, p.1, p.2)
      ∈ ents.map (fun e => (e.table_name, e.batch_start_id, e.batch_end_id)) := by
    rw [h]
    exact List.mem_map_of_mem _ hp
  rw [List.mem_map] at hmem
  obtain ⟨e, he, heq⟩ := hmem
  rw [Prod.mk.injEq, Prod.mk.injEq] at heq
  exact ⟨e, he, heq.1, heq.2.2⟩

/-- After a full uninterrupted run that appended the entries of the batch
ranges from s to the cutoff, the resume position of the table equals the
cutoff. -/
lemma get_last_after_full_run {t : String} {db1 : DBState} {db : DBState}
    {ents : List LogEntry} {c bs : Nat} (hbs : 1 ≤ bs)
    (hstart : get_last_processed_id t db.deletion_log + 1 ≤ c)
    (h1 : db1.deletion_log = db.deletion_log ++ ents)
    (h2 : ents.map (fun e => (e.table_name, e.batch_start_id, e.batch_end_id))
        = (batchRanges (get_last_processed_id t db.deletion_log + 1) c bs).map
            (fun p => (t, p.1, p.2))) :
    get_last_processed_id t db1.deletion_log = c := by
  unfold get_last_processed_id
  rw [h1, List.filter_append, List.map_append]
  have hents := ents_fields h2
  have hsurj := ents_surj h2
  have hfil : ents.filter (fun e => e.table_name == t) = ents := by
    rw [List.filter_eq_self]
    intro e he
    rw [beq_iff_eq]
    exact (hents e he).1
  rw [hfil]
  obtain ⟨plast, hplast, hplastend⟩ :=
    batchRanges_last_end (s := get_last_processed_id t db.deletion_log + 1)
      (c := c) hbs hstart
  obtain ⟨elast, helast, _, helastend⟩ := hsurj plast hplast
  refine sqlMaxIds_eq ?_ ?_
  · rw [List.mem_append]
    refine Or.inr ?_
    rw [List.mem_map]
    exact ⟨elast, helast, by rw [helastend, hplastend]⟩
  · intro x hx
    rw [List.mem_append] at hx
    rcases hx with hx | hx
    · have hxle : x ≤ get_last_processed_id t db.deletion_log := by
        unfold get_last_processed_id
        exact le_sqlMaxIds hx
      omega
    · rw [List.mem_map] at hx
      obtain ⟨e, he, hex⟩ := hx
      obtain ⟨-, p, hp, hep⟩ := hents e he
      have := (batchRanges_mem_bounds hbs hp).2.2.1
      omega

/-! ## Claim C1 -/

/-- Claim C1 is false as stated: on a database whose single reading (id 5)
lies inside the 2-year window, identify_reading_cutoff returns cutoff 5
with is_safe = true although the post-hoc re-check count — rows with id at
most the cutoff that satisfy the freshness predicate — is 1, not 0. The
reading path performs no re-check at all. -/
theorem claim_C1_counterexample :
    identify_reading_cutoff dbC1 = (5, 0, true)
    ∧ dbC1.reading.countP
        (fun r => decide (r.reading_id ≤ 5) && readingInWindow dbC1.now r)
      = 1 := by
  constructor <;> decide

/-- Claim C1 (amended): only the contact entry ties is_safe to the
post-hoc re-check — is_safe is true exactly when the re-check count is
zero, and the aggregate safety_status is SAFE exactly when that count is
zero (REQUIRES_REVIEW otherwise); the reading and community analyses set
is_safe = true unconditionally, with no re-check. -/
theorem claim_C1_safety_flag_semantics (db : DBState) :
    (identify_reading_cutoff db).2.2 = true
    ∧ (identify_community_cutoff db).2.2 = true
    ∧ ((identify_contact_cutoff db).2.2 = true
        ↔ contactSafetyRecheck db (identify_contact_cutoff db).1 = 0)
    ∧ (generate_cutoff_report db false false).map (fun rep => rep.safety_status)
        = Except.ok
            (if contactSafetyRecheck db (identify_contact_cutoff db).1 = 0
             then "SAFE" else "REQUIRES_REVIEW") := by
  have hr : (identify_reading_cutoff db).2.2 = true := by
    simp only [identify_reading_cutoff]
    by_cases h : sqlMinIds ((db.reading.filter
        (fun r => readingInWindow db.now r)).map (fun r => r.reading_id)) = 0
    · rw [if_pos h]
    · rw [if_neg h]
  have hcsnd : (identify_contact_cutoff db).2.2
      = (contactSafetyRecheck db (identify_contact_cutoff db).1 == 0) := rfl
  refine ⟨hr, rfl, ?_, ?_⟩
  · rw [hcsnd, beq_iff_eq]
  · have hgen : generate_cutoff_report db false false
        = Except.ok
            { reading := ⟨(identify_reading_cutoff db).1,
                (identify_reading_cutoff db).2.1,
                (identify_reading_cutoff db).2.2, db.now - 730⟩
              contact := ⟨(identify_contact_cutoff db).1,
                (identify_contact_cutoff db).2.1,
                (identify_contact_cutoff db).2.2, db.now - 2555⟩
              safety_status :=
                if (identify_reading_cutoff db).2.2
                    && (identify_contact_cutoff db).2.2
                then "SAFE" else "REQUIRES_REVIEW" } := rfl
    rw [hgen]
    simp only [Except.map]
    rw [hr, Bool.true_and, hcsnd]
    by_cases hz : contactSafetyRecheck db (identify_contact_cutoff db).1 = 0
    · simp [hz]
    · simp [beq_iff_eq, hz]

/-! ## Claim C3 -/

/-- Claim C3 is false as stated: with the minimum in-window reading id at
7000, identify_reading_cutoff returns 7000 itself, not 7000 - 1 = 6999.
The code takes MIN(reading_id) over the window directly; rows strictly
below the returned value are the deletion candidates. -/
theorem claim_C3_counterexample :
    (identify_reading_cutoff dbC3).1 = 7000
    ∧ (identify_reading_cutoff dbC3).1 ≠ 6999 := by
  constructor <;> decide

/-- Claim C3 (amended): identify_reading_cutoff returns as cutoff the
minimum reading id inside the 2-year window itself (not minus one), with
estimated_deletions counting the rows strictly below it; when no row lies
inside the window it returns COALESCE(MAX(reading_id), 0) + 1 with zero
estimated deletions, so the cutoff deletes nothing. -/
theorem claim_C3_reading_cutoff_value (db : DBState) :
    (∀ m : Nat, m ≠ 0 →
      (∃ r ∈ db.reading, readingInWindow db.now r = true ∧ r.reading_id = m) →
      (∀ r ∈ db.reading, readingInWindow db.now r = true → m ≤ r.reading_id) →
      identify_reading_cutoff db
        = (m, db.reading.countP (fun r => decide (r.reading_id < m)), true))
    ∧ ((∀ r ∈ db.reading, readingInWindow db.now r = false) →
      identify_reading_cutoff db
        = (sqlMaxIds (db.reading.map (fun r => r.reading_id)) + 1, 0, true)) := by
  constructor
  · rintro m hm ⟨r, hr, hrw, hrid⟩ hlb
    have hmin : sqlMinIds ((db.reading.filter
        (fun r => readingInWindow db.now r)).map (fun r => r.reading_id)) = m := by
      refine sqlMinIds_eq ?_ ?_
      · rw [List.mem_map]
        exact ⟨r, List.mem_filter.2 ⟨hr, hrw⟩, hrid⟩
      · intro x hx
        rw [List.mem_map] at hx
        obtain ⟨r2, hr2, hx⟩ := hx
        rw [List.mem_filter] at hr2
        rw [← hx]
        exact hlb r2 hr2.1 hr2.2
    simp only [identify_reading_cutoff]
    rw [hmin, if_neg hm]
  · intro hall
    have hfil : db.reading.filter (fun r => readingInWindow db.now r) = [] := by
      rw [List.filter_eq_nil_iff]
      intro a ha
      simp [hall a ha]
    simp only [identify_reading_cutoff, hfil]
    rfl

/-- Witness for the amended claim C3 at the concrete database dbC3. -/
theorem claim_C3_witness :
    (7000 : Nat) ≠ 0
    ∧ identify_reading_cutoff dbC3
        = (7000, dbC3.reading.countP (fun r => decide (r.reading_id < 7000)),
           true) :=
  ⟨by decide,
   (claim_C3_reading_cutoff_value dbC3).1 7000 (by decide) (by decide)
     (by decide)⟩

/-! ## Claim C4 -/

/-- Claim C4 is false as stated: a reading-phase query failure makes
generate_cutoff_report propagate the exception instead of defaulting the
entity and continuing — on dbC4 the injected reading failure yields an
error even though the same database yields a complete SAFE report when no
query fails. -/
theorem claim_C4_counterexample :
    generate_cutoff_report dbC4 true false
      = Except.error "reading query failed"
    ∧ (generate_cutoff_report dbC4 false false).map
        (fun rep => rep.safety_status) = Except.ok "SAFE" :=
  ⟨rfl, rfl⟩

/-- Claim C4 (amended): generate_cutoff_report has no per-entity fault
isolation. A failure of the reading queries aborts the whole report
before the contact analysis runs, and a failure of the contact queries
aborts it after the reading analysis; in both cases the exception
propagates out and no entity is defaulted to (0, 0, false). -/
theorem claim_C4_failure_propagates (db : DBState) (b : Bool) :
    generate_cutoff_report db true b = Except.error "reading query failed"
    ∧ generate_cutoff_report db false true
        = Except.error "contact query failed" :=
  ⟨rfl, rfl⟩

/-! ## Claim C2 -/

/-- Claim C2 is false as stated: on a report whose only entry has
is_safe = false and whose safety_status is REQUIRES_REVIEW, the deleter
proceeds without any operator override — one batch runs, the contact row
is deleted and an audit row is written. -/
theorem claim_C2_counterexample :
    fC2.safety_status = "REQUIRES_REVIEW"
    ∧ (lookupCfg (load_cutoff_config fC2) "contact").map (fun c => c.is_safe)
        = some false
    ∧ (process_table dbC2 (load_cutoff_config fC2) "contact" 1000 false
        (fun _ => false)).toOption.map
        (fun x => (x.1.total_deleted, x.1.batches_processed,
          x.2.contact.length, x.2.deletion_log.length))
      = some (1, 1, 0, 1) := by
  refine ⟨rfl, rfl, ?_⟩
  decide

/-- Claim C2 (amended): the deleter never consults is_safe or
safety_status. load_cutoff_config keeps only the cutoffs mapping, and
process_table depends on the configuration only through each entry's
cutoff_id: two report files that agree on the table-to-cutoff_id mapping
produce identical runs, whatever their safety fields say, and there is no
override mechanism. -/
theorem claim_C2_deleter_ignores_safety (db : DBState) (f fx : CutoffFile)
    (t : String) (bs : Nat) (dry : Bool) (intr : Nat → Bool)
    (h : (load_cutoff_config f).map (fun p => (p.1, p.2.cutoff_id))
        = (load_cutoff_config fx).map (fun p => (p.1, p.2.cutoff_id))) :
    process_table db (load_cutoff_config f) t bs dry intr
      = process_table db (load_cutoff_config fx) t bs dry intr := by
  have hl := lookupCfg_map_cutoff h t
  cases hc : lookupCfg (load_cutoff_config f) t with
  | none =>
    cases hc2 : lookupCfg (load_cutoff_config fx) t with
    | none => simp only [process_table, hc, hc2]
    | some c2 => rw [hc, hc2] at hl; simp at hl
  | some c =>
    cases hc2 : lookupCfg (load_cutoff_config fx) t with
    | none => rw [hc, hc2] at hl; simp at hl
    | some c2 =>
      have hcc : c.cutoff_id = c2.cutoff_id := by
        rw [hc, hc2] at hl
        simpa using hl
      simp only [process_table, hc, hc2]
      rw [hcc]

/-- Witness for the amended claim C2: flipping the report from unsafe and
REQUIRES_REVIEW to safe and SAFE changes nothing in the deleter run. -/
theorem claim_C2_witness :
    ((load_cutoff_config fC2).map (fun p => (p.1, p.2.cutoff_id))
      = (load_cutoff_config fC2b).map (fun p => (p.1, p.2.cutoff_id)))
    ∧ process_table dbC2 (load_cutoff_config fC2) "contact" 1000 false
        (fun _ => false)
      = process_table dbC2 (load_cutoff_config fC2b) "contact" 1000 false
        (fun _ => false) :=
  ⟨by decide,
   claim_C2_deleter_ignores_safety dbC2 fC2 fC2b "contact" 1000 false
     (fun _ => false) (by decide)⟩

/-! ## Claim C5 -/

/-- Claim C5: an uninterrupted real run of process_table with
start_id at most cutoff_id appends exactly one deletion_log row per batch
(whatever its rowcount), whose ranges are exactly the batch ranges from
start_id: strictly ascending, of width at most batch_size, and covering
[start_id, cutoff_id] with no gaps and no overlaps. -/
theorem claim_C5_batch_coverage (db : DBState) (f : CutoffFile) (t : String)
    (bs s : Nat) (c : CutoffEntry)
    (hbs : 1 ≤ bs)
    (hc : lookupCfg (load_cutoff_config f) t = some c)
    (hs : s = get_last_processed_id t db.deletion_log + 1)
    (hstart : s ≤ c.cutoff_id) :
    ∃ (r : ProcessResult) (db1 : DBState) (ents : List LogEntry),
      process_table db (load_cutoff_config f) t bs false (fun _ => false)
        = Except.ok (r, db1)
      ∧ db1.deletion_log = db.deletion_log ++ ents
      ∧ ents.map (fun e => (e.table_name, e.batch_start_id, e.batch_end_id))
          = (batchRanges s c.cutoff_id bs).map (fun p => (t, p.1, p.2))
      ∧ r.batches_processed = (batchRanges s c.cutoff_id bs).length
      ∧ List.Pairwise (fun p q : Nat × Nat => p.2 < q.1)
          (batchRanges s c.cutoff_id bs)
      ∧ (∀ p ∈ batchRanges s c.cutoff_id bs, p.1 ≤ p.2 ∧ p.2 + 1 ≤ p.1 + bs)
      ∧ (∀ x : Nat, (∃ p ∈ batchRanges s c.cutoff_id bs, p.1 ≤ x ∧ x ≤ p.2)
            ↔ (s ≤ x ∧ x ≤ c.cutoff_id)) := by
  subst hs
  have h0 : ¬ c.cutoff_id = 0 := by omega
  have hloop := processLoop_spec t c.cutoff_id bs false (fun _ => false) hbs
    (numBatches (get_last_processed_id t db.deletion_log + 1) c.cutoff_id bs)
    (c.cutoff_id + 1) (get_last_processed_id t db.deletion_log + 1) 0 0 0 db
    le_rfl (fun i _ => rfl) (fun hlt => absurd hlt (lt_irrefl _))
    (by
      have := numBatches_le
        (s := get_last_processed_id t db.deletion_log + 1)
        (c := c.cutoff_id) hbs (by omega)
      omega)
  rw [← batchRanges_length, List.take_length] at hloop
  obtain ⟨ents, h1, h2⟩ := runBatches_log t c.cutoff_id
    (batchRanges (get_last_processed_id t db.deletion_log + 1) c.cutoff_id bs)
    db
  refine ⟨⟨0 + (runBatches t c.cutoff_id false
        (batchRanges (get_last_processed_id t db.deletion_log + 1)
          c.cutoff_id bs) db).2,
      0 + (batchRanges (get_last_processed_id t db.deletion_log + 1)
          c.cutoff_id bs).length,
      some (((get_last_processed_id t db.deletion_log + 1
          + bs * (batchRanges (get_last_processed_id t db.deletion_log + 1)
              c.cutoff_id bs).length : Nat) : Int) - (bs : Int))⟩,
    (runBatches t c.cutoff_id false
      (batchRanges (get_last_processed_id t db.deletion_log + 1)
        c.cutoff_id bs) db).1,
    ents, ?_, h1, h2, ?_,
    batchRanges_pairwise hbs,
    (fun p hp => ⟨(batchRanges_mem_bounds hbs hp).2.1,
      (batchRanges_mem_bounds hbs hp).2.2.2⟩),
    (fun x => batchRanges_cover hbs x)⟩
  · simp only [process_table, hc]
    rw [if_neg h0, if_neg (by omega :
      ¬ c.cutoff_id < get_last_processed_id t db.deletion_log + 1)]
    rw [hloop]
  · simp

/-- Witness for claim C5: the reading table of dbC5 with cutoff 5 and
batch size 2 is processed in ranges (1,2), (3,4), (5,5). -/
theorem claim_C5_witness :
    ∃ (r : ProcessResult) (db1 : DBState) (ents : List LogEntry),
      process_table dbC5 (load_cutoff_config fC5) "reading" 2 false
        (fun _ => false) = Except.ok (r, db1)
      ∧ db1.deletion_log = dbC5.deletion_log ++ ents
      ∧ ents.map (fun e => (e.table_name, e.batch_start_id, e.batch_end_id))
          = (batchRanges 1 cC5.cutoff_id 2).map (fun p => ("reading", p.1, p.2))
      ∧ r.batches_processed = (batchRanges 1 cC5.cutoff_id 2).length
      ∧ List.Pairwise (fun p q : Nat × Nat => p.2 < q.1)
          (batchRanges 1 cC5.cutoff_id 2)
      ∧ (∀ p ∈ batchRanges 1 cC5.cutoff_id 2, p.1 ≤ p.2 ∧ p.2 + 1 ≤ p.1 + 2)
      ∧ (∀ x : Nat, (∃ p ∈ batchRanges 1 cC5.cutoff_id 2, p.1 ≤ x ∧ x ≤ p.2)
            ↔ (1 ≤ x ∧ x ≤ cC5.cutoff_id)) :=
  claim_C5_batch_coverage dbC5 fC5 "reading" 2 1 cC5 (by decide) (by decide)
    (by decide) (by decide)

/-! ## Claim C10 -/

/-- Claim C10: a configured cutoff_id of 0 — the identifier failure
default — makes process_table return total 0 and batches 0 immediately,
with the whole database state, deletion_log included, unchanged. -/
theorem claim_C10_cutoff_zero_noop (db : DBState)
    (cfg : List (String × CutoffEntry)) (t : String) (bs : Nat) (dry : Bool)
    (intr : Nat → Bool) (c : CutoffEntry)
    (hc : lookupCfg cfg t = some c) (h0 : c.cutoff_id = 0) :
    process_table db cfg t bs dry intr = Except.ok (⟨0, 0, none⟩, db) := by
  simp only [process_table, hc]
  rw [if_pos h0]

/-- Witness for claim C10 at a concrete database and the failure-default
entry. -/
theorem claim_C10_witness :
    process_table dbC10 (load_cutoff_config fC10) "contact" 1000 true
      (fun _ => false) = Except.ok (⟨0, 0, none⟩, dbC10) :=
  claim_C10_cutoff_zero_noop dbC10 (load_cutoff_config fC10) "contact" 1000
    true (fun _ => false) cC10 rfl rfl

/-! ## Claim C7 -/

/-- Claim C7 is false as stated: on the same inputs and prior log state,
the dry run visits the same two batch ranges as the real run with
records_deleted 0, but appends no deletion_log rows at all, while the
real run appends one per batch — the log shapes differ by more than
records_deleted. -/
theorem claim_C7_counterexample :
    (process_table dbC7 (load_cutoff_config fC7) "reading" 2 true
        (fun _ => false)).toOption.map
        (fun x => (x.1.total_deleted, x.1.batches_processed,
          x.2.deletion_log.length))
      = some (0, 2, 0)
    ∧ (process_table dbC7 (load_cutoff_config fC7) "reading" 2 false
        (fun _ => false)).toOption.map
        (fun x => (x.1.total_deleted, x.1.batches_processed,
          x.2.deletion_log.length))
      = some (1, 2, 2) := by
  constructor <;> decide

/-- Claim C7 (amended): with identical inputs and identical prior log
state, a dry run of process_table advances through exactly the same batch
ranges as a real run — same batch count and same final position — with
records_deleted 0 and no statement with delete effect: the database,
deletion_log included, is returned unchanged. Unlike a real run it
appends no audit rows. -/
theorem claim_C7_dry_run_parity (db : DBState) (f : CutoffFile) (t : String)
    (bs : Nat) (c : CutoffEntry)
    (hbs : 1 ≤ bs)
    (hc : lookupCfg (load_cutoff_config f) t = some c) :
    ∃ (rd rr : ProcessResult) (db1 : DBState),
      process_table db (load_cutoff_config f) t bs true (fun _ => false)
        = Except.ok (rd, db)
      ∧ process_table db (load_cutoff_config f) t bs false (fun _ => false)
        = Except.ok (rr, db1)
      ∧ rd.total_deleted = 0
      ∧ rd.batches_processed = rr.batches_processed
      ∧ rd.last_processed_id = rr.last_processed_id := by
  by_cases h0 : c.cutoff_id = 0
  · refine ⟨⟨0, 0, none⟩, ⟨0, 0, none⟩, db, ?_, ?_, rfl, rfl, rfl⟩
    · simp only [process_table, hc]; rw [if_pos h0]
    · simp only [process_table, hc]; rw [if_pos h0]
  · by_cases hlt : c.cutoff_id < get_last_processed_id t db.deletion_log + 1
    · refine ⟨⟨0, 0, none⟩, ⟨0, 0, none⟩, db, ?_, ?_, rfl, rfl, rfl⟩
      · simp only [process_table, hc]; rw [if_neg h0, if_pos hlt]
      · simp only [process_table, hc]; rw [if_neg h0, if_pos hlt]
    · have hfuel : numBatches (get_last_processed_id t db.deletion_log + 1)
          c.cutoff_id bs + 1 ≤ c.cutoff_id + 1 := by
        have := numBatches_le
          (s := get_last_processed_id t db.deletion_log + 1)
          (c := c.cutoff_id) hbs (by omega)
        omega
      have hd := processLoop_spec t c.cutoff_id bs true (fun _ => false) hbs
        (numBatches (get_last_processed_id t db.deletion_log + 1)
          c.cutoff_id bs)
        (c.cutoff_id + 1) (get_last_processed_id t db.deletion_log + 1)
        0 0 0 db
        le_rfl (fun i _ => rfl) (fun h2 => absurd h2 (lt_irrefl _)) hfuel
      have hr := processLoop_spec t c.cutoff_id bs false (fun _ => false) hbs
        (numBatches (get_last_processed_id t db.deletion_log + 1)
          c.cutoff_id bs)
        (c.cutoff_id + 1) (get_last_processed_id t db.deletion_log + 1)
        0 0 0 db
        le_rfl (fun i _ => rfl) (fun h2 => absurd h2 (lt_irrefl _)) hfuel
      rw [← batchRanges_length, List.take_length] at hd hr
      rw [runBatches_dry] at hd
      refine ⟨⟨0, 0 + (batchRanges (get_last_processed_id t db.deletion_log + 1)
            c.cutoff_id bs).length,
          some (((get_last_processed_id t db.deletion_log + 1
              + bs * (batchRanges (get_last_processed_id t db.deletion_log + 1)
                  c.cutoff_id bs).length : Nat) : Int) - (bs : Int))⟩,
        ⟨0 + (runBatches t c.cutoff_id false
            (batchRanges (get_last_processed_id t db.deletion_log + 1)
              c.cutoff_id bs) db).2,
          0 + (batchRanges (get_last_processed_id t db.deletion_log + 1)
              c.cutoff_id bs).length,
          some (((get_last_processed_id t db.deletion_log + 1
              + bs * (batchRanges (get_last_processed_id t db.deletion_log + 1)
                  c.cutoff_id bs).length : Nat) : Int) - (bs : Int))⟩,
        (runBatches t c.cutoff_id false
          (batchRanges (get_last_processed_id t db.deletion_log + 1)
            c.cutoff_id bs) db).1,
        ?_, ?_, rfl, rfl, rfl⟩
      · simp only [process_table, hc]
        rw [if_neg h0, if_neg hlt, hd]
        rfl
      · simp only [process_table, hc]
        rw [if_neg h0, if_neg hlt, hr]

/-- Witness for the amended claim C7 at the concrete database dbC7. -/
theorem claim_C7_witness :
    ∃ (rd rr : ProcessResult) (db1 : DBState),
      process_table dbC7 (load_cutoff_config fC7) "reading" 2 true
        (fun _ => false) = Except.ok (rd, dbC7)
      ∧ process_table dbC7 (load_cutoff_config fC7) "reading" 2 false
        (fun _ => false) = Except.ok (rr, db1)
      ∧ rd.total_deleted = 0
      ∧ rd.batches_processed = rr.batches_processed
      ∧ rd.last_processed_id = rr.last_processed_id :=
  claim_C7_dry_run_parity dbC7 fC7 "reading" 2 ⟨4, 1, true, 0⟩ (by decide)
    (by decide)

/-! ## Claim C8 -/

/-- Claim C8: with the interrupt flag first observed set at the j-th
top-of-loop check, process_table performs exactly the first
min j (number of batches) batches — the in-flight batch finishes,
commits and writes its audit row, and no further batch ever begins. -/
theorem claim_C8_interrupt_granularity (db : DBState) (f : CutoffFile)
    (t : String) (bs j : Nat) (c : CutoffEntry) (intr : Nat → Bool)
    (hbs : 1 ≤ bs)
    (hc : lookupCfg (load_cutoff_config f) t = some c)
    (hstart : get_last_processed_id t db.deletion_log + 1 ≤ c.cutoff_id)
    (hj1 : ∀ i, i < j → intr i = false)
    (hj2 : intr j = true) :
    ∃ (r : ProcessResult) (db1 : DBState) (ents : List LogEntry),
      process_table db (load_cutoff_config f) t bs false intr
        = Except.ok (r, db1)
      ∧ r.batches_processed
          = min j (numBatches (get_last_processed_id t db.deletion_log + 1)
              c.cutoff_id bs)
      ∧ db1.deletion_log = db.deletion_log ++ ents
      ∧ ents.map (fun e => (e.table_name, e.batch_start_id, e.batch_end_id))
          = ((batchRanges (get_last_processed_id t db.deletion_log + 1)
                c.cutoff_id bs).take
              (min j (numBatches (get_last_processed_id t db.deletion_log + 1)
                c.cutoff_id bs))).map (fun p => (t, p.1, p.2)) := by
  have h0 : ¬ c.cutoff_id = 0 := by omega
  have hjmin1 : ∀ i, i <
      min j (numBatches (get_last_processed_id t db.deletion_log + 1)
        c.cutoff_id bs) → intr (0 + i) = false := by
    intro i hi
    rw [Nat.zero_add]
    exact hj1 i (lt_of_lt_of_le hi (min_le_left _ _))
  have hjmin2 :
      min j (numBatches (get_last_processed_id t db.deletion_log + 1)
        c.cutoff_id bs)
      < numBatches (get_last_processed_id t db.deletion_log + 1)
          c.cutoff_id bs →
      intr (0 + min j (numBatches (get_last_processed_id t db.deletion_log + 1)
        c.cutoff_id bs)) = true := by
    intro hlt
    have hje : min j (numBatches (get_last_processed_id t db.deletion_log + 1)
        c.cutoff_id bs) = j := by omega
    rw [Nat.zero_add, hje]
    exact hj2
  have hfuel : min j (numBatches (get_last_processed_id t db.deletion_log + 1)
      c.cutoff_id bs) + 1 ≤ c.cutoff_id + 1 := by
    have := numBatches_le
      (s := get_last_processed_id t db.deletion_log + 1)
      (c := c.cutoff_id) hbs (by omega)
    omega
  have hloop := processLoop_spec t c.cutoff_id bs false intr hbs
    (min j (numBatches (get_last_processed_id t db.deletion_log + 1)
      c.cutoff_id bs))
    (c.cutoff_id + 1) (get_last_processed_id t db.deletion_log + 1) 0 0 0 db
    (min_le_right _ _) hjmin1 hjmin2 hfuel
  obtain ⟨ents, h1, h2⟩ := runBatches_log t c.cutoff_id
    ((batchRanges (get_last_processed_id t db.deletion_log + 1)
        c.cutoff_id bs).take
      (min j (numBatches (get_last_processed_id t db.deletion_log + 1)
        c.cutoff_id bs))) db
  refine ⟨⟨0 + (runBatches t c.cutoff_id false
        ((batchRanges (get_last_processed_id t db.deletion_log + 1)
            c.cutoff_id bs).take
          (min j (numBatches (get_last_processed_id t db.deletion_log + 1)
            c.cutoff_id bs))) db).2,
      0 + min j (numBatches (get_last_processed_id t db.deletion_log + 1)
          c.cutoff_id bs),
      some (((get_last_processed_id t db.deletion_log + 1
          + bs * min j (numBatches (get_last_processed_id t db.deletion_log + 1)
              c.cutoff_id bs) : Nat) : Int) - (bs : Int))⟩,
    (runBatches t c.cutoff_id false
      ((batchRanges (get_last_processed_id t db.deletion_log + 1)
          c.cutoff_id bs).take
        (min j (numBatches (get_last_processed_id t db.deletion_log + 1)
          c.cutoff_id bs))) db).1,
    ents, ?_, ?_, h1, h2⟩
  · simp only [process_table, hc]
    rw [if_neg h0, if_neg (by omega :
      ¬ c.cutoff_id < get_last_processed_id t db.deletion_log + 1)]
    rw [hloop]
  · simp

/-- Witness for claim C8: the flag set from the second check on stops the
run after exactly one of the three batches, with its audit row written. -/
theorem claim_C8_witness :
    ∃ (r : ProcessResult) (db1 : DBState) (ents : List LogEntry),
      process_table dbC8 (load_cutoff_config fC8) "reading" 2 false intrC8
        = Except.ok (r, db1)
      ∧ r.batches_processed = min 1 (numBatches 1 5 2)
      ∧ db1.deletion_log = dbC8.deletion_log ++ ents
      ∧ ents.map (fun e => (e.table_name, e.batch_start_id, e.batch_end_id))
          = ((batchRanges 1 5 2).take (min 1 (numBatches 1 5 2))).map
              (fun p => ("reading", p.1, p.2)) :=
  claim_C8_interrupt_granularity dbC8 fC8 "reading" 2 1 ⟨5, 1, true, 0⟩ intrC8
    (by decide) (by decide) (by decide)
    (fun i hi => by
      have h0 : i = 0 := Nat.lt_one_iff.1 hi
      subst h0
      decide)
    (by decide)

/-! ## Claim C6 -/

/-- Claim C6: the run starts at 1 + the last logged batch_end_id (0 when
the log has no rows); a start beyond the cutoff is an already-complete
no-op returning total 0 and batches 0 rather than an error; and an
immediate second run after any successful run deletes nothing, returns
total 0 and batches 0, and leaves the state untouched. -/
theorem claim_C6_resume_idempotence :
    (∀ t : String, get_last_processed_id t [] = 0)
    ∧ (∀ (db : DBState) (cfg : List (String × CutoffEntry)) (t : String)
        (bs : Nat) (dry : Bool) (intr : Nat → Bool) (c : CutoffEntry),
        lookupCfg cfg t = some c →
        c.cutoff_id ≠ 0 →
        c.cutoff_id < get_last_processed_id t db.deletion_log + 1 →
        process_table db cfg t bs dry intr = Except.ok (⟨0, 0, none⟩, db))
    ∧ (∀ (db db1 : DBState) (cfg : List (String × CutoffEntry)) (t : String)
        (bs : Nat) (r1 : ProcessResult),
        1 ≤ bs →
        process_table db cfg t bs false (fun _ => false)
          = Except.ok (r1, db1) →
        process_table db1 cfg t bs false (fun _ => false)
          = Except.ok (⟨0, 0, none⟩, db1)) := by
  refine ⟨fun t => rfl, ?_, ?_⟩
  · intro db cfg t bs dry intr c hc h0 hlt
    simp only [process_table, hc]
    rw [if_neg h0, if_pos hlt]
  · intro db db1 cfg t bs r1 hbs hrun
    cases hc : lookupCfg cfg t with
    | none =>
      simp only [process_table, hc] at hrun
      cases hrun
    | some c =>
      by_cases h0 : c.cutoff_id = 0
      · simp only [process_table, hc] at hrun ⊢
        rw [if_pos h0] at hrun ⊢
      · by_cases hlt : c.cutoff_id < get_last_processed_id t db.deletion_log + 1
        · simp only [process_table, hc] at hrun ⊢
          rw [if_neg h0] at hrun ⊢
          rw [if_pos hlt] at hrun
          rw [Except.ok.injEq, Prod.mk.injEq] at hrun
          rw [← hrun.2]
          rw [if_pos hlt]
        · have hstart : get_last_processed_id t db.deletion_log + 1
              ≤ c.cutoff_id := by omega
          have hloop := processLoop_spec t c.cutoff_id bs false
            (fun _ => false) hbs
            (numBatches (get_last_processed_id t db.deletion_log + 1)
              c.cutoff_id bs)
            (c.cutoff_id + 1) (get_last_processed_id t db.deletion_log + 1)
            0 0 0 db
            le_rfl (fun i _ => rfl) (fun h2 => absurd h2 (lt_irrefl _))
            (by
              have := numBatches_le
                (s := get_last_processed_id t db.deletion_log + 1)
                (c := c.cutoff_id) hbs (by omega)
              omega)
          rw [← batchRanges_length, List.take_length] at hloop
          simp only [process_table, hc] at hrun
          rw [if_neg h0, if_neg (by omega)] at hrun
          rw [hloop] at hrun
          rw [Except.ok.injEq, Prod.mk.injEq] at hrun
          obtain ⟨-, hdb1⟩ := hrun
          obtain ⟨ents, h1, h2⟩ := runBatches_log t c.cutoff_id
            (batchRanges (get_last_processed_id t db.deletion_log + 1)
              c.cutoff_id bs) db
          have hlast : get_last_processed_id t db1.deletion_log
              = c.cutoff_id := by
            rw [← hdb1]
            exact get_last_after_full_run hbs hstart h1 h2
          simp only [process_table, hc]
          rw [if_neg h0, if_pos (by omega :
            c.cutoff_id < get_last_processed_id t db1.deletion_log + 1)]

/-- Witness for claim C6: after one full run on dbC6, a second run is a
no-op. -/
theorem claim_C6_witness :
    (1 : Nat) ≤ 2
    ∧ process_table dbC6next (load_cutoff_config fC6) "reading" 2 false
        (fun _ => false) = Except.ok (⟨0, 0, none⟩, dbC6next) :=
  ⟨by decide,
   claim_C6_resume_idempotence.2.2 dbC6 dbC6next (load_cutoff_config fC6)
     "reading" 2 rC6 (by decide) rfl⟩

/-! ## Claim C9 -/

/-- Claim C9 is false as stated: with an object table that does not carry
the key Contact looked up by the enhanced deleter (it holds dstContact),
delete_contact_dependencies returns the empty summary with the database
unchanged — the leaf address row of the owner survives and no error is
raised; the code logs a warning and returns instead of failing loudly. -/
theorem claim_C9_counterexample :
    cacheGet (load_object_types dbC9) "Contact" = none
    ∧ delete_contact_dependencies false (load_object_types dbC9) 3 dbC9
        = ([], dbC9)
    ∧ dbC9.address.length = 1 := by
  refine ⟨rfl, ?_, rfl⟩
  decide

/-- Claim C9 (amended): the object-type cache is loaded once and every
polymorphic delete filters on both object_id and the resolved
object_type_id — delete_polymorphic_records removes exactly the rows of
its table matching both columns — and the resolved Contact type id is the
one used across the whole dependency cascade. But when the Contact type
cannot be resolved (missing key, or id 0 through Python falsiness),
delete_contact_dependencies logs a warning and returns an empty summary,
skipping every dependency delete without raising. -/
theorem claim_C9_polymorphic_delete :
    (∀ (db : DBState) (oid tid bs : Nat), 1 ≤ bs →
      delete_polymorphic_records false "address" oid tid bs db
        = (db.address.countP
            (fun a => a.object_id == oid && a.object_type_id == tid),
           { db with address :=
              db.address.filter (fun a => !(a.object_id == oid && a.object_type_id == tid)) }))
    ∧ (∀ (db : DBState) (oid tid bs : Nat), 1 ≤ bs →
      delete_polymorphic_records false "phone" oid tid bs db
        = (db.phone.countP
            (fun p => p.object_id == oid && p.object_type_id == tid),
           { db with phone :=
              db.phone.filter (fun p => !(p.object_id == oid && p.object_type_id == tid)) }))
    ∧ (∀ (db : DBState) (oid tid bs : Nat), 1 ≤ bs →
      delete_polymorphic_records false "note" oid tid bs db
        = (db.note.countP
            (fun n => n.object_id == oid && n.object_type_id == tid),
           { db with note :=
              db.note.filter (fun n => !(n.object_id == oid && n.object_type_id == tid)) }))
    ∧ (∀ (db : DBState) (oid tid bs : Nat), 1 ≤ bs →
      delete_polymorphic_records false "email" oid tid bs db
        = (db.email.countP
            (fun em => em.object_id == oid && em.object_type_id == tid),
           { db with email :=
              db.email.filter (fun em => !(em.object_id == oid && em.object_type_id == tid)) }))
    ∧ (∀ (db : DBState) (oid tid bs : Nat), 1 ≤ bs →
      delete_polymorphic_records false "tenant" oid tid bs db
        = (db.tenant.countP
            (fun tr => tr.object_id == oid && tr.object_type_id == tid),
           { db with tenant :=
              db.tenant.filter (fun tr => !(tr.object_id == oid && tr.object_type_id == tid)) }))
    ∧ (∀ (cache : List (String × Nat)) (cid : Nat) (db : DBState),
        (cacheGet cache "Contact").getD 0 = 0 →
        delete_contact_dependencies false cache cid db = ([], db))
    ∧ (∀ (cache : List (String × Nat)) (cid tid : Nat) (db : DBState),
        cacheGet cache "Contact" = some tid → tid ≠ 0 →
        (delete_contact_dependencies false cache cid db).2.address
          = db.address.filter
              (fun a => !(a.object_id == cid && a.object_type_id == tid))) := by
  refine ⟨?_, ?_, ?_, ?_, ?_, ?_, ?_⟩
  · intro db oid tid bs hbs
    have h := polyDeleteLoop_complete
      (fun a : AddressRow => a.object_id == oid && a.object_type_id == tid)
      bs (db.address.length + 1) db.address hbs
      (Nat.lt_succ_of_le (List.countP_le_length _))
    calc delete_polymorphic_records false "address" oid tid bs db
        = ((polyDeleteLoop (fun a : AddressRow =>
              a.object_id == oid && a.object_type_id == tid) bs
              (db.address.length + 1) db.address).1,
           { db with address := (polyDeleteLoop (fun a : AddressRow =>
              a.object_id == oid && a.object_type_id == tid) bs
              (db.address.length + 1) db.address).2 }) := rfl
      _ = _ := by rw [h]
  · intro db oid tid bs hbs
    have h := polyDeleteLoop_complete
      (fun p : PhoneRow => p.object_id == oid && p.object_type_id == tid)
      bs (db.phone.length + 1) db.phone hbs
      (Nat.lt_succ_of_le (List.countP_le_length _))
    calc delete_polymorphic_records false "phone" oid tid bs db
        = ((polyDeleteLoop (fun p : PhoneRow =>
              p.object_id == oid && p.object_type_id == tid) bs
              (db.phone.length + 1) db.phone).1,
           { db with phone := (polyDeleteLoop (fun p : PhoneRow =>
              p.object_id == oid && p.object_type_id == tid) bs
              (db.phone.length + 1) db.phone).2 }) := rfl
      _ = _ := by rw [h]
  · intro db oid tid bs hbs
    have h := polyDeleteLoop_complete
      (fun n : NoteRow => n.object_id == oid && n.object_type_id == tid)
      bs (db.note.length + 1) db.note hbs
      (Nat.lt_succ_of_le (List.countP_le_length _))
    calc delete_polymorphic_records false "note" oid tid bs db
        = ((polyDeleteLoop (fun n : NoteRow =>
              n.object_id == oid && n.object_type_id == tid) bs
              (db.note.length + 1) db.note).1,
           { db with note := (polyDeleteLoop (fun n : NoteRow =>
              n.object_id == oid && n.object_type_id == tid) bs
              (db.note.length + 1) db.note).2 }) := rfl
      _ = _ := by rw [h]
  · intro db oid tid bs hbs
    have h := polyDeleteLoop_complete
      (fun em : EmailRow => em.object_id == oid && em.object_type_id == tid)
      bs (db.email.length + 1) db.email hbs
      (Nat.lt_succ_of_le (List.countP_le_length _))
    calc delete_polymorphic_records false "email" oid tid bs db
        = ((polyDeleteLoop (fun em : EmailRow =>
              em.object_id == oid && em.object_type_id == tid) bs
              (db.email.length + 1) db.email).1,
           { db with email := (polyDeleteLoop (fun em : EmailRow =>
              em.object_id == oid && em.object_type_id == tid) bs
              (db.email.length + 1) db.email).2 }) := rfl
      _ = _ := by rw [h]
  · intro db oid tid bs hbs
    have h := polyDeleteLoop_complete
      (fun tr : TenantRow => tr.object_id == oid && tr.object_type_id == tid)
      bs (db.tenant.length + 1) db.tenant hbs
      (Nat.lt_succ_of_le (List.countP_le_length _))
    calc delete_polymorphic_records false "tenant" oid tid bs db
        = ((polyDeleteLoop (fun tr : TenantRow =>
              tr.object_id == oid && tr.object_type_id == tid) bs
              (db.tenant.length + 1) db.tenant).1,
           { db with tenant := (polyDeleteLoop (fun tr : TenantRow =>
              tr.object_id == oid && tr.object_type_id == tid) bs
              (db.tenant.length + 1) db.tenant).2 }) := rfl
      _ = _ := by rw [h]
  · intro cache cid db hget
    simp only [delete_contact_dependencies]
    rw [if_pos hget]
  · intro cache cid tid db hget htid
    have hg0 : (cacheGet cache "Contact").getD 0 = tid := by rw [hget]; rfl
    have h := polyDeleteLoop_complete
      (fun a : AddressRow => a.object_id == cid && a.object_type_id == tid)
      1000 (db.address.length + 1) db.address (by omega)
      (Nat.lt_succ_of_le (List.countP_le_length _))
    simp only [delete_contact_dependencies, hg0]
    rw [if_neg htid]
    show (polyDeleteLoop (fun a : AddressRow =>
        a.object_id == cid && a.object_type_id == tid) 1000
        (db.address.length + 1) db.address).2
      = db.address.filter
          (fun a => !(a.object_id == cid && a.object_type_id == tid))
    rw [h]

/-- Witness for the amended claim C9: on dbC9w the address delete for
owner (3, type 7) removes exactly the matching row. -/
theorem claim_C9_witness :
    (1 : Nat) ≤ 1000
    ∧ delete_polymorphic_records false "address" 3 7 1000 dbC9w
        = (dbC9w.address.countP
            (fun a => a.object_id == 3 && a.object_type_id == 7),
           { dbC9w with address :=
              dbC9w.address.filter (fun a => !(a.object_id == 3 && a.object_type_id == 7)) }) :=
  ⟨by decide, claim_C9_polymorphic_delete.1 dbC9w 3 7 1000 (by decide)⟩

end NesCleanup
